import Mathlib

/-!
# Verification of the capstone retirement-projection engine

Shallow embedding, in Lean 4, of the interval-scheduling and
scenario-simulation engine of the capstone repository:

* `backend/core/projection.py` — the original projection engine
  (`project_savings_table`, `project_savings_with_retirement`) and the
  "from-scratch" engine (`simulate_scenario`, `project_plan`);
* `backend/domain/accumulation.py` — the multi-account accumulation
  engine (`prepare_plan`, `_validate_rows`, `accumulate_plan`,
  `_apply_spending`).

Python floats are embedded as exact rationals (`ℚ`); Python ints as `ℤ`
(list indices as `ℕ`).  Python's `round(x, 2)` is embedded as exact
round-half-to-even on rationals at the recording boundary.  Python dicts
keyed by ints with `.get(k, default)` access are embedded as total
functions updated pointwise.
-/

namespace Capstone

/-- Run a stateful step over a list of inputs, collecting the emitted
outputs.  This is the generic shape of the year-by-year simulation loops:
each loop body maps `(state, input) ↦ (state', emitted row)`. -/
def runSteps (f : σ → α → σ × β) : σ → List α → List β
  | _, [] => []
  | s, a :: as => (f s a).2 :: runSteps f (f s a).1 as

/-- The state left behind after running the steps over a list of inputs. -/
def foldSteps (f : σ → α → σ × β) (s : σ) (l : List α) : σ :=
  l.foldl (fun s a => (f s a).1) s

theorem runSteps_nil (f : σ → α → σ × β) (s : σ) : runSteps f s [] = [] := rfl

theorem runSteps_cons (f : σ → α → σ × β) (s : σ) (a : α) (as : List α) :
    runSteps f s (a :: as) = (f s a).2 :: runSteps f (f s a).1 as := rfl

theorem runSteps_append (f : σ → α → σ × β) (s : σ) (l₁ l₂ : List α) :
    runSteps f s (l₁ ++ l₂) = runSteps f s l₁ ++ runSteps f (foldSteps f s l₁) l₂ := by
  induction l₁ generalizing s with
  | nil => rfl
  | cons a as ih => simp [runSteps_cons, ih, foldSteps, List.foldl_cons]

theorem length_runSteps (f : σ → α → σ × β) (s : σ) (l : List α) :
    (runSteps f s l).length = l.length := by
  induction l generalizing s with
  | nil => rfl
  | cons a as ih => simp [runSteps_cons, ih]

/-- Every emitted row is the output of the step function at some
intermediate state and some input from the list. -/
theorem mem_runSteps (f : σ → α → σ × β) (s : σ) (l : List α) (b : β)
    (hb : b ∈ runSteps f s l) : ∃ s' a, a ∈ l ∧ b = (f s' a).2 := by
  induction l generalizing s with
  | nil => cases hb
  | cons a as ih =>
    rcases List.mem_cons.mp hb with hb | hb
    · exact ⟨s, a, List.mem_cons_self .., hb⟩
    · obtain ⟨s', a', ha', hb'⟩ := ih _ hb
      exact ⟨s', a', List.mem_cons_of_mem _ ha', hb'⟩

/-- If a projection of the emitted row only depends on the input (not on
the state), then projecting the run is a plain `map` over the inputs. -/
theorem map_runSteps (f : σ → α → σ × β) (g : β → γ) (h : α → γ)
    (hg : ∀ s a, g (f s a).2 = h a) (s : σ) (l : List α) :
    (runSteps f s l).map g = l.map h := by
  induction l generalizing s with
  | nil => rfl
  | cons a as ih => simp [runSteps_cons, hg, ih]

/-- `enumRange a b` is Python's `enumerate(range(a, b + 1))`: the list of
`(index, age)` pairs for ages `a, a+1, …, b` (empty when `b < a`). -/
def enumRange (a b : ℤ) : List (ℕ × ℤ) :=
  (List.range (b + 1 - a).toNat).map fun i => (i, a + i)

theorem length_enumRange (a b : ℤ) : (enumRange a b).length = (b + 1 - a).toNat := by
  simp [enumRange]

theorem enumRange_append_last (a b : ℤ) (h : a ≤ b) :
    enumRange a b = enumRange a (b - 1) ++ [((b - a).toNat, b)] := by
  have h1 : (b + 1 - a).toNat = (b - a).toNat + 1 := by omega
  have h2 : (b - 1 + 1 - a).toNat = (b - a).toNat := by omega
  have h3 : a + ((b - a).toNat : ℤ) = b := by omega
  simp only [enumRange, h1, h2, List.range_succ, List.map_append, List.map_cons, List.map_nil,
    h3]

theorem mem_enumRange (a b : ℤ) (p : ℕ × ℤ) (hp : p ∈ enumRange a b) :
    p.2 = a + p.1 ∧ a ≤ p.2 ∧ p.2 ≤ b := by
  simp only [enumRange, List.mem_map, List.mem_range] at hp
  obtain ⟨i, hi, rfl⟩ := hp
  omega

/-- Round-half-to-even on rationals (the tie-breaking rule of Python's
builtin `round`). -/
def roundHalfEven (q : ℚ) : ℤ :=
  let f := ⌊q⌋
  let r := q - f
  if r < 1 / 2 then f
  else if 1 / 2 < r then f + 1
  else if f % 2 = 0 then f else f + 1

/-- Exact model of Python's `round(x, 2)` at the row-recording boundary. -/
def round2 (q : ℚ) : ℚ := (roundHalfEven (q * 100) : ℚ) / 100

theorem round2_intCast (n : ℤ) : round2 (n : ℚ) = n := by
  have h : ((n : ℚ) * 100) = ((n * 100 : ℤ) : ℚ) := by push_cast; ring
  have hfloor : ⌊((n * 100 : ℤ) : ℚ)⌋ = n * 100 := Int.floor_intCast _
  simp only [round2, roundHalfEven, h, hfloor]
  rw [if_pos (by push_cast; norm_num)]
  push_cast
  field_simp

-- ---------------------------------------------------------------------
-- backend/core/projection.py : tax helpers (lines 147-192)
-- ---------------------------------------------------------------------

/-- `TaxTreatment` (projection.py): the `"none" | "entry" | "growth" |
"exit"` string enum. -/
inductive TaxTreatment where
  | none
  | entry
  | growth
  | exit
deriving DecidableEq, Repr

/-- `_contribution_after_tax` (projection.py lines 154-157). -/
def contributionAfterTax (raw : ℚ) (treatment : TaxTreatment) (rate : ℚ) : ℚ :=
  if treatment = TaxTreatment.entry then raw * (1 - rate) else raw

/-- `_effective_growth_rate` (projection.py lines 160-163). -/
def effectiveGrowthRate (rate : ℚ) (treatment : TaxTreatment) (taxRate : ℚ) : ℚ :=
  if treatment = TaxTreatment.growth then rate * (1 - taxRate) else rate

/-- `_withdrawal_gross_up` (projection.py lines 166-171); the denominator
is capped below at `1e-6` to avoid a division blow-up as `rate → 1`. -/
def withdrawalGrossUp (netAmount : ℚ) (treatment : TaxTreatment) (taxRate : ℚ) : ℚ :=
  if treatment ≠ TaxTreatment.exit then netAmount
  else netAmount / max (1 - taxRate) (1 / 1000000)

/-- `_apply_capital_gains_withdrawal` (projection.py lines 174-192):
returns `(gross_withdrawal, new_basis)`. -/
def applyCapitalGainsWithdrawal (netAmount basis taxRate : ℚ) : ℚ × ℚ :=
  let basisUsed := min netAmount (max basis 0)
  let taxable := max 0 (netAmount - basisUsed)
  let tax := taxable * taxRate
  (netAmount + tax, max 0 (basis - basisUsed))

-- ---------------------------------------------------------------------
-- backend/core/projection.py : original data model (lines 15-115)
-- ---------------------------------------------------------------------

/-- `BasicInfo` (projection.py lines 15-19). -/
structure BasicInfo where
  currentAge : ℤ
  retirementAge : ℤ
  currentSavings : ℚ
  retirementSpendingRaw : ℚ
deriving DecidableEq, Repr

/-- `ScenarioValues` (projection.py lines 22-25): a `{min, avg, max}`
triple. -/
structure ScenarioValues where
  min : ℚ
  avg : ℚ
  max : ℚ
deriving DecidableEq, Repr

/-- `GrowthScenarios` (projection.py lines 28-30). -/
structure GrowthScenarios where
  inflation : ScenarioValues
  growth : ScenarioValues
deriving DecidableEq, Repr

/-- `GrowthAssumptions` (projection.py lines 33-76). -/
structure GrowthAssumptions where
  annualInflation : ℚ
  inflationErrorMargin : ℚ
  investmentReturnRate : ℚ
  investmentReturnErrorMargin : ℚ
deriving DecidableEq, Repr

/-- `GrowthAssumptions.to_scenarios` (projection.py lines 39-51). -/
def GrowthAssumptions.toScenarios (a : GrowthAssumptions) : GrowthScenarios where
  inflation :=
    { min := a.annualInflation - a.inflationErrorMargin
      avg := a.annualInflation
      max := a.annualInflation + a.inflationErrorMargin }
  growth :=
    { min := a.investmentReturnRate - a.investmentReturnErrorMargin
      avg := a.investmentReturnRate
      max := a.investmentReturnRate + a.investmentReturnErrorMargin }

/-- `GrowthAssumptions.inflation_band` (projection.py lines 55-65). -/
def GrowthAssumptions.inflationBand (a : GrowthAssumptions) : ScenarioValues where
  min := a.annualInflation - a.inflationErrorMargin
  avg := a.annualInflation
  max := a.annualInflation + a.inflationErrorMargin

/-- `GrowthAssumptions.growth_band` (projection.py lines 67-76). -/
def GrowthAssumptions.growthBand (a : GrowthAssumptions) : ScenarioValues where
  min := a.investmentReturnRate - a.investmentReturnErrorMargin
  avg := a.investmentReturnRate
  max := a.investmentReturnRate + a.investmentReturnErrorMargin

/-- `ContributionBreakpoint` (projection.py lines 79-86). -/
structure ContributionBreakpoint where
  fromAge : ℤ
  base : ℚ
  changeYoY : ℚ
  years : Option ℤ := Option.none
deriving DecidableEq, Repr

/-- `SavingsPlan` (projection.py lines 89-92); the Python field is an
optional string defaulting to `"none"`, embedded as the enum directly. -/
structure SavingsPlan where
  breakpoints : List ContributionBreakpoint := []
  taxTreatment : TaxTreatment := TaxTreatment.none
  taxRate : ℚ := 0
deriving DecidableEq, Repr

/-- `YearRow` (projection.py lines 95-102). -/
structure YearRow where
  age : ℤ
  year : ℤ
  contribution : ℚ
  growth : ScenarioValues
  savings : ScenarioValues
deriving DecidableEq, Repr

/-- `YearRowWithSpending` (projection.py lines 105-107); inheritance is
flattened into a single structure. -/
structure YearRowWithSpending where
  age : ℤ
  year : ℤ
  contribution : ℚ
  growth : ScenarioValues
  spending : ScenarioValues
  savings : ScenarioValues
deriving DecidableEq, Repr

/-- The sort of `sorted(rows, key=lambda r: r.fromAge)`
(projection.py line 122): a stable sort on `fromAge` (insertion sort is
stable for the non-strict comparison, like Python's `sorted`). -/
def sortBreakpoints (rows : List ContributionBreakpoint) : List ContributionBreakpoint :=
  rows.insertionSort fun a b => a.fromAge ≤ b.fromAge

/-- Body of the `_make_intervals` loop (projection.py lines 124-130),
consuming the already-sorted rows; the head of the remaining list plays
the role of `rows_sorted[i + 1]`. -/
def mkIntervalsAux (stopAge : ℤ) :
    List ContributionBreakpoint → List (ℤ × ℤ × ContributionBreakpoint)
  | [] => []
  | row :: rest =>
    let nextStart := match rest with
      | nxt :: _ => nxt.fromAge
      | [] => stopAge
    let e := row.fromAge + (match row.years with
      | some y => y
      | Option.none => max (nextStart - row.fromAge) 0)
    let e := if e ≤ row.fromAge then nextStart else e
    (row.fromAge, e, row) :: mkIntervalsAux stopAge rest

/-- `_make_intervals` (projection.py lines 118-131): returns
`[(startAge, endAgeExclusive, row), …]`, sorted by start. -/
def mkIntervals (rows : List ContributionBreakpoint) (stopAge : ℤ) :
    List (ℤ × ℤ × ContributionBreakpoint) :=
  mkIntervalsAux stopAge (sortBreakpoints rows)

/-- `_active_row` (projection.py lines 134-140): first interval with
`start ≤ age < end`. -/
def activeRow (intervals : List (ℤ × ℤ × ContributionBreakpoint)) (age : ℤ) :
    Option ContributionBreakpoint :=
  (intervals.find? fun t => decide (t.1 ≤ age ∧ age < t.2.1)).map fun t => t.2.2

-- ---------------------------------------------------------------------
-- backend/core/projection.py : project_savings_table (lines 195-275)
-- ---------------------------------------------------------------------

/-- The clamped tax rate `max(0.0, min(1.0, taxRate))` used by both
projection entry points (projection.py lines 213 and 305). -/
def clampRate (rate : ℚ) : ℚ := max 0 (min 1 rate)

/-- The contribution looked up for one age (projection.py lines 238-242
and 368-371): `base * (1 + changeYoY) ^ (age - fromAge)` for the active
breakpoint, else `0`.  The exponent is an integer power, as in Python. -/
def contributionAt (intervals : List (ℤ × ℤ × ContributionBreakpoint)) (age : ℤ) : ℚ :=
  match activeRow intervals age with
  | some rule => rule.base * (1 + rule.changeYoY) ^ (age - rule.fromAge)
  | Option.none => 0

/-- Loop state of `project_savings_table`: the three scenario balances. -/
structure TableState where
  balMin : ℚ
  balAvg : ℚ
  balMax : ℚ
deriving DecidableEq, Repr

/-- Static data of the `project_savings_table` loop, computed by the
preamble (projection.py lines 211-231). -/
structure TableCtx where
  gMin : ℚ
  gAvg : ℚ
  gMax : ℚ
  taxTreatment : TaxTreatment
  taxRate : ℚ
  intervals : List (ℤ × ℤ × ContributionBreakpoint)
  year0 : ℤ
deriving Repr

/-- One iteration of the `project_savings_table` loop
(projection.py lines 234-273). -/
def tableStep (c : TableCtx) (s : TableState) (p : ℕ × ℤ) : TableState × YearRow :=
  let age := p.2
  let year := c.year0 + p.1
  let contrib := contributionAt c.intervals age
  -- 1) growth on the starting balance only
  let balMin := s.balMin * (1 + c.gMin)
  let balAvg := s.balAvg * (1 + c.gAvg)
  let balMax := s.balMax * (1 + c.gMax)
  -- 2) this year's contribution, tax-adjusted, added after growth
  let contribAfterTax := contributionAfterTax contrib c.taxTreatment c.taxRate
  let balMin := balMin + contribAfterTax
  let balAvg := balAvg + contribAfterTax
  let balMax := balMax + contribAfterTax
  (⟨balMin, balAvg, balMax⟩,
   { age := age
     year := year
     contribution := round2 contrib
     growth := ⟨c.gMin, c.gAvg, c.gMax⟩
     savings := ⟨round2 balMin, round2 balAvg, round2 balMax⟩ })

/-- The default single breakpoint used when `plan.breakpoints` is empty
(projection.py lines 218-223 and 320-327). -/
def defaultBreakpoints (basic : BasicInfo) : List ContributionBreakpoint :=
  [{ fromAge := basic.currentAge, base := 0, changeYoY := 0,
     years := some (max 0 (basic.retirementAge - basic.currentAge)) }]

/-- `plan.breakpoints or [default]` (projection.py lines 218 and 320). -/
def breakpointsOrDefault (basic : BasicInfo) (plan : SavingsPlan) :
    List ContributionBreakpoint :=
  if plan.breakpoints = [] then defaultBreakpoints basic else plan.breakpoints

/-- Preamble of `project_savings_table` (projection.py lines 211-231);
`year0` stands for `current_year or datetime.now().year`. -/
def tableCtx (basic : BasicInfo) (assumptions : GrowthAssumptions) (plan : SavingsPlan)
    (year0 : ℤ) : TableCtx :=
  let scenarios := assumptions.toScenarios
  let taxRate := clampRate plan.taxRate
  { gMin := effectiveGrowthRate scenarios.growth.min plan.taxTreatment taxRate
    gAvg := effectiveGrowthRate scenarios.growth.avg plan.taxTreatment taxRate
    gMax := effectiveGrowthRate scenarios.growth.max plan.taxTreatment taxRate
    taxTreatment := plan.taxTreatment
    taxRate := taxRate
    intervals := mkIntervals (breakpointsOrDefault basic plan) (basic.retirementAge + 1)
    year0 := year0 }

/-- `project_savings_table` (projection.py lines 195-275). -/
def projectSavingsTable (basic : BasicInfo) (assumptions : GrowthAssumptions)
    (plan : SavingsPlan) (year0 : ℤ) : List YearRow :=
  runSteps (tableStep (tableCtx basic assumptions plan year0))
    ⟨basic.currentSavings, basic.currentSavings, basic.currentSavings⟩
    (enumRange basic.currentAge basic.retirementAge)

-- ---------------------------------------------------------------------
-- backend/core/projection.py : project_savings_with_retirement
-- (lines 278-449)
-- ---------------------------------------------------------------------

/-- Loop state of `project_savings_with_retirement`: per-scenario
balances, capital-gains bases, and last year's nominal spending
(`None` before the first retirement year). -/
structure RetState where
  balMin : ℚ
  balAvg : ℚ
  balMax : ℚ
  basisMin : ℚ
  basisAvg : ℚ
  basisMax : ℚ
  prevMin : Option ℚ
  prevAvg : Option ℚ
  prevMax : Option ℚ
deriving DecidableEq, Repr

/-- Static data of the `project_savings_with_retirement` loop, computed
by the preamble (projection.py lines 303-356). -/
structure RetCtx where
  gMin : ℚ
  gAvg : ℚ
  gMax : ℚ
  infMin : ℚ
  infAvg : ℚ
  infMax : ℚ
  taxTreatment : TaxTreatment
  taxRate : ℚ
  intervals : List (ℤ × ℤ × ContributionBreakpoint)
  retirementAge : ℤ
  spend0Min : ℚ
  spend0Avg : ℚ
  spend0Max : ℚ
  spendingChangeYoY : ℚ
  year0 : ℤ
deriving Repr

/-- `next_spend` (projection.py lines 390-397). -/
def nextSpend (base0 : ℚ) (prev : Option ℚ) (infl : ℚ) (spendingChangeYoY : ℚ) : ℚ :=
  if base0 ≤ 0 then 0
  else match prev with
    | Option.none => base0
    | some pv => pv * (1 + infl + spendingChangeYoY)

/-- The withdrawal-tax branch of the retirement step
(projection.py lines 410-417): returns `(taxed spending, new basis)`. -/
def retirementTaxedSpend (treatment : TaxTreatment) (taxRate : ℚ) (spend basis : ℚ) :
    ℚ × ℚ :=
  if treatment = TaxTreatment.growth then
    applyCapitalGainsWithdrawal spend basis taxRate
  else
    (withdrawalGrossUp spend treatment taxRate, basis)

/-- One iteration of the `project_savings_with_retirement` loop
(projection.py lines 360-447). -/
def retStep (c : RetCtx) (s : RetState) (p : ℕ × ℤ) : RetState × YearRowWithSpending :=
  let age := p.2
  let year := c.year0 + p.1
  if age < c.retirementAge then
    -- ---------- Working years ----------
    -- 1) contribution for the year, entry-tax adjusted
    let contrib := contributionAfterTax (contributionAt c.intervals age)
      c.taxTreatment c.taxRate
    -- 2) growth on the starting balances only
    -- 3) contribution added after growth; basis grows by the contribution
    let s' : RetState :=
      { balMin := s.balMin * (1 + c.gMin) + contrib
        balAvg := s.balAvg * (1 + c.gAvg) + contrib
        balMax := s.balMax * (1 + c.gMax) + contrib
        basisMin := s.basisMin + contrib
        basisAvg := s.basisAvg + contrib
        basisMax := s.basisMax + contrib
        prevMin := s.prevMin
        prevAvg := s.prevAvg
        prevMax := s.prevMax }
    (s', { age := age, year := year
           contribution := round2 contrib
           growth := ⟨c.gMin, c.gAvg, c.gMax⟩
           spending := ⟨round2 0, round2 0, round2 0⟩
           savings := ⟨round2 s'.balMin, round2 s'.balAvg, round2 s'.balMax⟩ })
  else
    -- ---------- Retirement years ----------
    -- worst path pairs low growth with HIGH inflation, best with LOW
    let spendMin := nextSpend c.spend0Min s.prevMin c.infMax c.spendingChangeYoY
    let spendAvg := nextSpend c.spend0Avg s.prevAvg c.infAvg c.spendingChangeYoY
    let spendMax := nextSpend c.spend0Max s.prevMax c.infMin c.spendingChangeYoY
    let tMin := retirementTaxedSpend c.taxTreatment c.taxRate spendMin s.basisMin
    let tAvg := retirementTaxedSpend c.taxTreatment c.taxRate spendAvg s.basisAvg
    let tMax := retirementTaxedSpend c.taxTreatment c.taxRate spendMax s.basisMax
    -- 1) subtract spending before growth; 2) growth on the post-spending balance
    let s' : RetState :=
      { balMin := (s.balMin - tMin.1) * (1 + c.gMin)
        balAvg := (s.balAvg - tAvg.1) * (1 + c.gAvg)
        balMax := (s.balMax - tMax.1) * (1 + c.gMax)
        basisMin := tMin.2
        basisAvg := tAvg.2
        basisMax := tMax.2
        prevMin := some spendMin
        prevAvg := some spendAvg
        prevMax := some spendMax }
    (s', { age := age, year := year
           contribution := round2 0
           growth := ⟨c.gMin, c.gAvg, c.gMax⟩
           spending := ⟨round2 spendMin, round2 spendAvg, round2 spendMax⟩
           savings := ⟨round2 s'.balMin, round2 s'.balAvg, round2 s'.balMax⟩ })

/-- Preamble of `project_savings_with_retirement`
(projection.py lines 303-356); `year0` stands for
`current_year or datetime.now().year`. -/
def retCtx (basic : BasicInfo) (assumptions : GrowthAssumptions) (plan : SavingsPlan)
    (year0 : ℤ) (spendingChangeYoY : ℚ) : RetCtx :=
  let s := assumptions.toScenarios
  let taxRate := clampRate plan.taxRate
  let yearsToRet := max 0 (basic.retirementAge - basic.currentAge)
  { gMin := effectiveGrowthRate s.growth.min plan.taxTreatment taxRate
    gAvg := effectiveGrowthRate s.growth.avg plan.taxTreatment taxRate
    gMax := effectiveGrowthRate s.growth.max plan.taxTreatment taxRate
    infMin := s.inflation.min
    infAvg := s.inflation.avg
    infMax := s.inflation.max
    taxTreatment := plan.taxTreatment
    taxRate := taxRate
    intervals := mkIntervals (breakpointsOrDefault basic plan) basic.retirementAge
    retirementAge := basic.retirementAge
    -- base nominal spending at retirement per band: worst uses highest
    -- inflation, best uses lowest (projection.py lines 342-351)
    spend0Min := if 0 < basic.retirementSpendingRaw then
        basic.retirementSpendingRaw * (1 + s.inflation.max) ^ yearsToRet else 0
    spend0Avg := if 0 < basic.retirementSpendingRaw then
        basic.retirementSpendingRaw * (1 + s.inflation.avg) ^ yearsToRet else 0
    spend0Max := if 0 < basic.retirementSpendingRaw then
        basic.retirementSpendingRaw * (1 + s.inflation.min) ^ yearsToRet else 0
    spendingChangeYoY := spendingChangeYoY
    year0 := year0 }

/-- Initial loop state (projection.py lines 334-356): balances and bases
start at `currentSavings`; no previous spending recorded. -/
def retInit (basic : BasicInfo) : RetState :=
  { balMin := basic.currentSavings, balAvg := basic.currentSavings
    balMax := basic.currentSavings
    basisMin := basic.currentSavings, basisAvg := basic.currentSavings
    basisMax := basic.currentSavings
    prevMin := Option.none, prevAvg := Option.none, prevMax := Option.none }

/-- `project_savings_with_retirement` (projection.py lines 278-449). -/
def projectSavingsWithRetirement (basic : BasicInfo) (assumptions : GrowthAssumptions)
    (plan : SavingsPlan) (year0 : ℤ) (yearsAfterRetirement : ℤ)
    (spendingChangeYoY : ℚ) : List YearRowWithSpending :=
  let endAge := basic.retirementAge + max 0 yearsAfterRetirement
  runSteps (retStep (retCtx basic assumptions plan year0 spendingChangeYoY))
    (retInit basic) (enumRange basic.currentAge endAge)

-- ---------------------------------------------------------------------
-- backend/core/projection.py : the "from-scratch" backend
-- (lines 457-736)
-- ---------------------------------------------------------------------

/-- `Scenario` (projection.py lines 457-460). -/
inductive Scenario where
  | min
  | avg
  | max
deriving DecidableEq, Repr

/-- `ScenarioRates` (projection.py lines 463-471). -/
structure ScenarioRates where
  scenario : Scenario
  inflation : ℚ
  nominalGrowth : ℚ
deriving DecidableEq, Repr

/-- `ScenarioRates.real_growth` (projection.py lines 468-471): the
Fisher relation `(1 + nominal) / (1 + inflation) - 1`. -/
def ScenarioRates.realGrowth (r : ScenarioRates) : ℚ :=
  (1 + r.nominalGrowth) / (1 + r.inflation) - 1

/-- `SavingsAccountConfig` (projection.py lines 474-492). -/
structure SavingsAccountConfig where
  name : String := "Savings #1"
  initialBalance : ℚ := 0
  fromAge : ℤ
  years : Option ℤ := Option.none
  baseContribution : ℚ
  contributionGrowth : ℚ
deriving DecidableEq, Repr

/-- `RetirementSpendingConfig` (projection.py lines 495-507). -/
structure RetirementSpendingConfig where
  name : String := "Retirement Spending #1"
  fromAge : ℤ
  years : Option ℤ
  annualSpendingToday : ℚ
deriving DecidableEq, Repr

/-- `PlanInputs` (projection.py lines 510-526). -/
structure PlanInputs where
  currentAge : ℤ
  retirementAge : ℤ
  currentSavings : ℚ
  desiredRetirementSpendingToday : ℚ
  growth : GrowthAssumptions
  savingsAccounts : List SavingsAccountConfig := []
  spendingItems : List RetirementSpendingConfig := []
deriving DecidableEq, Repr

/-- `SingleScenarioYear` (projection.py lines 529-539). -/
structure SingleScenarioYear where
  age : ℤ
  yearIndex : ℕ
  startingBalance : ℚ
  contributions : ℚ
  spending : ℚ
  endingBalance : ℚ
deriving DecidableEq, Repr

/-- `YearlyRow` (projection.py lines 542-552). -/
structure YearlyRow where
  age : ℤ
  yearIndex : ℕ
  startingBalance : ScenarioValues
  contributions : ScenarioValues
  spending : ScenarioValues
  endingBalance : ScenarioValues
deriving DecidableEq, Repr

/-- `rates_for_scenario` (projection.py lines 555-584): MIN pairs the
highest inflation with the lowest growth, MAX the converse. -/
def ratesForScenario (assumptions : GrowthAssumptions) (scenario : Scenario) :
    ScenarioRates :=
  let inf := assumptions.inflationBand
  let gr := assumptions.growthBand
  match scenario with
  | Scenario.min => ⟨scenario, inf.max, gr.min⟩
  | Scenario.max => ⟨scenario, inf.min, gr.max⟩
  | Scenario.avg => ⟨scenario, inf.avg, gr.avg⟩

/-- `get_effective_spending_items` (projection.py lines 587-602): fall
back to a single default line built from
`desired_retirement_spending_today` when no spending items are given. -/
def getEffectiveSpendingItems (plan : PlanInputs) (yearsAfterRetirement : ℤ) :
    List RetirementSpendingConfig :=
  if plan.spendingItems ≠ [] then plan.spendingItems
  else
    [{ name := "Default retirement spending"
       fromAge := plan.retirementAge
       years := some yearsAfterRetirement
       annualSpendingToday := plan.desiredRetirementSpendingToday }]

/-- One spending item's action at one age (projection.py lines 657-673):
`none` when the item is skipped (inactive window), otherwise the nominal
spending recorded back into `prev_spend_by_item`.  `prevVal` is
`prev_spend_by_item.get(idx, 0.0)`. -/
def spendItemStep (infl : ℚ) (currentAge : ℤ) (item : RetirementSpendingConfig)
    (prevVal : ℚ) (age : ℤ) : Option ℚ :=
  if age < item.fromAge then Option.none
  else
    let nominal : ℚ :=
      if age = item.fromAge then
        -- first active year: grow today's dollars to from_age
        item.annualSpendingToday * (1 + infl) ^ (item.fromAge - currentAge)
      else
        -- subsequent years: last year's spending * (1 + inflation)
        prevVal * (1 + infl)
    match item.years with
    | some y => if item.fromAge + y ≤ age then Option.none else some nominal
    | Option.none => some nominal

/-- The spending loop `for idx, item in enumerate(effective_spending)`
(projection.py lines 651-674), with `idx` carried explicitly: the
accumulator holds the running `spend` total and the `prev_spend_by_item`
map (embedded as a total function, default `0`). -/
def spendFoldAux (infl : ℚ) (currentAge : ℤ) (age : ℤ) :
    ℕ → List RetirementSpendingConfig → ℚ × (ℕ → ℚ) → ℚ × (ℕ → ℚ)
  | _, [], acc => acc
  | idx, item :: rest, acc =>
    let acc' := match spendItemStep infl currentAge item (acc.2 idx) age with
      | Option.none => acc
      | some v => (acc.1 + v, fun j => if j = idx then v else acc.2 j)
    spendFoldAux infl currentAge age (idx + 1) rest acc'

/-- The whole spending pass for one year: total spending and the updated
`prev_spend_by_item` map. -/
def spendFold (infl : ℚ) (currentAge : ℤ) (items : List RetirementSpendingConfig)
    (prev : ℕ → ℚ) (age : ℤ) : ℚ × (ℕ → ℚ) :=
  spendFoldAux infl currentAge age 0 items (0, prev)

/-- One savings account's contribution at one age (projection.py
lines 638-648); `years = None` defaults the stop age to retirement. -/
def accountContributionAt (retirementAge : ℤ) (acc : SavingsAccountConfig)
    (age : ℤ) : ℚ :=
  let accEndAge := match acc.years with
    | some y => acc.fromAge + y
    | Option.none => retirementAge
  if acc.fromAge ≤ age ∧ age < accEndAge then
    acc.baseContribution * (1 + acc.contributionGrowth) ^ (age - acc.fromAge)
  else 0

/-- Loop state of `simulate_scenario`: the running balance and the
`prev_spend_by_item` map. -/
structure SimState where
  balance : ℚ
  prev : ℕ → ℚ

/-- One iteration of the `simulate_scenario` loop
(projection.py lines 633-690). -/
def simStep (plan : PlanInputs) (rates : ScenarioRates)
    (items : List RetirementSpendingConfig) (s : SimState) (p : ℕ × ℤ) :
    SimState × SingleScenarioYear :=
  let age := p.2
  let starting := s.balance
  let contrib := (plan.savingsAccounts.map
    fun acc => accountContributionAt plan.retirementAge acc age).sum
  -- spending is only subtracted in retirement years
  let sp : ℚ × (ℕ → ℚ) :=
    if plan.retirementAge ≤ age then
      spendFold rates.inflation plan.currentAge items s.prev age
    else (0, s.prev)
  -- growth on starting balance minus spending; contributions after growth
  let balance := (starting - sp.1) * (1 + rates.nominalGrowth) + contrib
  (⟨balance, sp.2⟩,
   { age := age, yearIndex := p.1, startingBalance := starting
     contributions := contrib, spending := sp.1, endingBalance := balance })

/-- `simulate_scenario` (projection.py lines 605-692). -/
def simulateScenario (plan : PlanInputs) (scenario : Scenario)
    (yearsAfterRetirement : ℤ) : List SingleScenarioYear :=
  let rates := ratesForScenario plan.growth scenario
  let items := getEffectiveSpendingItems plan yearsAfterRetirement
  let endAge := plan.retirementAge + yearsAfterRetirement
  let balance0 := plan.currentSavings +
    (plan.savingsAccounts.map fun acc => acc.initialBalance).sum
  runSteps (simStep plan rates items) ⟨balance0, fun _ => 0⟩
    (enumRange plan.currentAge endAge)

/-- The zip body of `project_plan` (projection.py lines 709-733):
combines one row from each scenario run into a `YearlyRow`. -/
def combineRows (rMin rAvg rMax : SingleScenarioYear) : YearlyRow where
  age := rMin.age
  yearIndex := rMin.yearIndex
  startingBalance := ⟨rMin.startingBalance, rAvg.startingBalance, rMax.startingBalance⟩
  contributions := ⟨rMin.contributions, rAvg.contributions, rMax.contributions⟩
  spending := ⟨rMin.spending, rAvg.spending, rMax.spending⟩
  endingBalance := ⟨rMin.endingBalance, rAvg.endingBalance, rMax.endingBalance⟩

/-- `project_plan` (projection.py lines 695-736): run the three scenarios
and zip them (the python `assert`s on matching age and year_index are
proved as an invariant below, not embedded). -/
def projectPlan (plan : PlanInputs) (yearsAfterRetirement : ℤ) : List YearlyRow :=
  List.zipWith3 combineRows
    (simulateScenario plan Scenario.min yearsAfterRetirement)
    (simulateScenario plan Scenario.avg yearsAfterRetirement)
    (simulateScenario plan Scenario.max yearsAfterRetirement)

-- ---------------------------------------------------------------------
-- backend/models.py and backend/domain/accumulation.py
-- (namespaced because models.py reuses the name `Scenario`)
-- ---------------------------------------------------------------------

namespace Accum

/-- `ContributionRow` (models.py lines 9-15). -/
structure ContributionRow where
  fromAge : ℤ
  base : ℚ
  growthRate : ℚ := 0
  years : Option ℤ := Option.none
deriving DecidableEq, Repr

/-- `GrowthOverrideRow` (models.py lines 18-23). -/
structure GrowthOverrideRow where
  fromAge : ℤ
  rate : ℚ
  years : Option ℤ := Option.none
deriving DecidableEq, Repr

/-- `SpendingRow` (models.py lines 36-41). -/
structure SpendingRow where
  fromAge : ℤ
  annualSpending : ℚ
  years : Option ℤ := Option.none
deriving DecidableEq, Repr

/-- `Account` (models.py lines 26-33); the optional `note` is omitted. -/
structure Account where
  label : String
  initialBalance : ℚ := 0
  contributions : List ContributionRow := []
  growthOverrides : List GrowthOverrideRow := []
deriving DecidableEq, Repr

/-- `Scenario` (models.py lines 44-48). -/
structure Scenario where
  kind : String
  nominalRate : ℚ
deriving DecidableEq, Repr

/-- `Plan` (models.py lines 51-67). -/
structure Plan where
  startAge : ℤ
  retireAge : ℤ
  inflationRate : ℚ
  initialBalance : ℚ := 0
  annualContribution : ℚ := 0
  nominalGrowthRate : ℚ := 6 / 100
  accounts : List Account := []
  spendingSchedule : List SpendingRow := []
  scenarios : List Scenario := []
  startingRetirementSpending : ℚ := 0
deriving DecidableEq, Repr

/-- `PreparedAccount` (domain/accumulation.py lines 31-36). -/
structure PreparedAccount where
  label : String
  initialBalance : ℚ
  contributions : List ContributionRow
  growthOverrides : List GrowthOverrideRow
deriving DecidableEq, Repr

/-- `PreparedPlan` (domain/accumulation.py lines 39-46). -/
structure PreparedPlan where
  startAge : ℤ
  retireAge : ℤ
  inflationRate : ℚ
  accounts : List PreparedAccount
  spendingSchedule : List SpendingRow
  scenarios : List Scenario
deriving DecidableEq, Repr

/-- `PlanValidation` (domain/accumulation.py lines 18-21). -/
structure PlanValidation where
  errors : List String
  warnings : List String
deriving DecidableEq, Repr

/-- `AccountSnapshot` (domain/accumulation.py lines 49-54). -/
structure AccountSnapshot where
  label : String
  nominal : ℚ
  real : ℚ
deriving DecidableEq, Repr

/-- `TotalSnapshot` (domain/accumulation.py lines 57-59). -/
structure TotalSnapshot where
  nominal : ℚ
  real : ℚ
deriving DecidableEq, Repr

/-- `YearEntry` (domain/accumulation.py lines 62-69). -/
structure YearEntry where
  scenario : String
  age : ℤ
  year : ℤ
  accounts : List AccountSnapshot
  total : TotalSnapshot
deriving DecidableEq, Repr

/-- `AccumulationResult` (domain/accumulation.py lines 72-73). -/
structure AccumulationResult where
  entries : List YearEntry
deriving DecidableEq, Repr

-- `_validate_rows` is duck-typed over rows exposing `from_age` and
-- `years`; it is embedded generically over accessor functions.

/-- The per-row interval end computed by `_validate_rows` and the
`_expand_*` schedules (domain/accumulation.py lines 262-266, 287-288,
304-305, 318-319): Python's `if row.years:` is falsy for both `None`
and `0`, and the end is clamped to the fallback bound. -/
def vrEnd (fromAge : ℤ) (years : Option ℤ) (nextStart bound : ℤ) : ℤ :=
  let e := match years with
    | some y => if y = 0 then nextStart else fromAge + y
    | Option.none => nextStart
  min e bound

/-- The `f"{label} invalid window at age {row.from_age}"` message
(domain/accumulation.py line 269). -/
def invalidMsg (label : String) (fromAge : ℤ) : String :=
  label ++ " invalid window at age " ++ toString fromAge

/-- The `f"{label} overlap ages {row.from_age}-{previous_end}"` message
(domain/accumulation.py line 272). -/
def overlapMsg (label : String) (fromAge prevEnd : ℤ) : String :=
  label ++ " overlap ages " ++ toString fromAge ++ "-" ++ toString prevEnd

/-- The `f"{label} gap ages {previous_end}-{row.from_age}"` message
(domain/accumulation.py line 274). -/
def gapMsg (label : String) (prevEnd fromAge : ℤ) : String :=
  label ++ " gap ages " ++ toString prevEnd ++ "-" ++ toString fromAge

/-- Stable sort by `from_age`, as `sorted(entries, key=lambda row:
row.from_age)` (domain/accumulation.py line 255). -/
def sortRows (fromAge : α → ℤ) (rows : List α) : List α :=
  rows.insertionSort fun a b => fromAge a ≤ fromAge b

/-- Loop of `_validate_rows` (domain/accumulation.py lines 260-275) over
the already-sorted rows, carrying `previous_end`. -/
def validateRowsAux (fromAge : α → ℤ) (years : α → Option ℤ) (bound : ℤ)
    (label : String) (prevEnd : Option ℤ) : List α → List String × List String
  | [] => ([], [])
  | r :: rest =>
    let nextStart := match rest with
      | r2 :: _ => fromAge r2
      | [] => bound
    let e := vrEnd (fromAge r) (years r) nextStart bound
    let errs1 := if e ≤ fromAge r then [invalidMsg label (fromAge r)] else []
    let pairMsgs : List String × List String := match prevEnd with
      | some pe =>
        if fromAge r < pe then ([overlapMsg label (fromAge r) pe], [])
        else if pe < fromAge r then ([], [gapMsg label pe (fromAge r)])
        else ([], [])
      | Option.none => ([], [])
    let rest' := validateRowsAux fromAge years bound label (some e) rest
    (errs1 ++ pairMsgs.1 ++ rest'.1, pairMsgs.2 ++ rest'.2)

/-- `_validate_rows` (domain/accumulation.py lines 250-277): returns
`(errors, warnings)`. -/
def validateRows (fromAge : α → ℤ) (years : α → Option ℤ) (rows : List α)
    (fallbackEnd : ℤ) (label : String) : List String × List String :=
  if rows.isEmpty then ([], [])
  else validateRowsAux fromAge years fallbackEnd label Option.none
    (sortRows fromAge rows)

/-- `_build_accounts` (domain/accumulation.py lines 185-220). -/
def buildAccounts (plan : Plan) : List PreparedAccount :=
  match plan.accounts with
  | [] =>
    let contributions : List ContributionRow :=
      if plan.annualContribution ≠ 0 then
        [{ fromAge := plan.startAge, base := plan.annualContribution,
           growthRate := 0, years := some (max (plan.retireAge - plan.startAge) 1) }]
      else []
    [{ label := "Main", initialBalance := plan.initialBalance,
       contributions := contributions, growthOverrides := [] }]
  | a0 :: rest =>
    let otherTotal := (rest.map fun a => a.initialBalance).sum
    { label := a0.label, initialBalance := max (plan.initialBalance - otherTotal) 0,
      contributions := a0.contributions, growthOverrides := a0.growthOverrides } ::
      rest.map fun a =>
        { label := a.label, initialBalance := a.initialBalance,
          contributions := a.contributions, growthOverrides := a.growthOverrides }

/-- The `for … else` search of `_build_spending`
(domain/accumulation.py lines 226-230): replace the first row whose
`from_age` equals the retirement age, or report that none was found. -/
def replaceRetireRow (retireAge : ℤ) (amount : ℚ) :
    List SpendingRow → Option (List SpendingRow)
  | [] => Option.none
  | r :: rest =>
    if r.fromAge = retireAge then some ({ r with annualSpending := amount } :: rest)
    else (replaceRetireRow retireAge amount rest).map (r :: ·)

/-- `_build_spending` (domain/accumulation.py lines 223-247). -/
def buildSpending (plan : Plan) : List SpendingRow :=
  if plan.spendingSchedule ≠ [] then
    match replaceRetireRow plan.retireAge plan.startingRetirementSpending
        plan.spendingSchedule with
    | some schedule => schedule
    | Option.none =>
      if plan.startingRetirementSpending ≠ 0 then
        plan.spendingSchedule ++
          [{ fromAge := plan.retireAge,
             annualSpending := plan.startingRetirementSpending, years := some 25 }]
      else plan.spendingSchedule
  else if plan.startingRetirementSpending ≠ 0 then
    [{ fromAge := plan.retireAge,
       annualSpending := plan.startingRetirementSpending, years := some 25 }]
  else []

/-- The `(errors, warnings)` of one account's two rule-sets
(domain/accumulation.py lines 83-98). -/
def accountDiagnostics (retireAge : ℤ) (account : PreparedAccount) :
    List String × List String :=
  let c := validateRows (fun r : ContributionRow => r.fromAge) (fun r => r.years)
    account.contributions retireAge (account.label ++ " contributions")
  let o := validateRows (fun r : GrowthOverrideRow => r.fromAge) (fun r => r.years)
    account.growthOverrides (retireAge + 1) (account.label ++ " growth overrides")
  (c.1 ++ o.1, c.2 ++ o.2)

/-- `prepare_plan` (domain/accumulation.py lines 76-116): builds the
prepared plan and accumulates all validation errors and warnings across
every rule-set. -/
def preparePlan (plan : Plan) : PreparedPlan × PlanValidation :=
  let accounts := buildAccounts plan
  let spending := buildSpending plan
  let accountPairs := accounts.map (accountDiagnostics plan.retireAge)
  let s := validateRows (fun r : SpendingRow => r.fromAge) (fun r => r.years)
    spending (plan.retireAge + 60) "spending schedule"
  let errors := (accountPairs.map Prod.fst).flatten ++ s.1
  let warnings := (accountPairs.map Prod.snd).flatten ++ s.2
  ({ startAge := plan.startAge, retireAge := plan.retireAge
     inflationRate := plan.inflationRate, accounts := accounts
     spendingSchedule := spending, scenarios := plan.scenarios },
   { errors := errors, warnings := warnings })

/-- `range(a, b)` over integers. -/
def intRange (a b : ℤ) : List ℤ :=
  (List.range (b - a).toNat).map fun i => a + i

/-- Python dict assignment `schedule[age] = v` on an `int → float` dict
embedded as a total function into `Option ℚ`. -/
def updSched (d : ℤ → Option ℚ) (a : ℤ) (v : ℚ) : ℤ → Option ℚ :=
  fun x => if x = a then some v else d x

/-- Loop of `_expand_contributions` (domain/accumulation.py
lines 285-293) over the sorted rows.  The inner `break` at
`age >= retire_age` is a `takeWhile` (the loop ages are increasing). -/
def expandContributionsAux (retireAge : ℤ) :
    List ContributionRow → (ℤ → Option ℚ) → (ℤ → Option ℚ)
  | [], d => d
  | r :: rest, d =>
    let nextStart := match rest with
      | r2 :: _ => r2.fromAge
      | [] => retireAge
    let e := vrEnd r.fromAge r.years nextStart retireAge
    let ages := (intRange r.fromAge e).takeWhile fun a => decide (a < retireAge)
    let d := ages.foldl
      (fun d a => updSched d a (r.base * (1 + r.growthRate) ^ (a - r.fromAge).toNat)) d
    expandContributionsAux retireAge rest d

/-- `_expand_contributions` (domain/accumulation.py lines 280-294);
`start_age` is accepted and unused, as in the source. -/
def expandContributions (rows : List ContributionRow) (startAge retireAge : ℤ) :
    ℤ → Option ℚ :=
  if rows.isEmpty then fun _ => Option.none
  else expandContributionsAux retireAge (sortRows (fun r => r.fromAge) rows)
    (fun _ => Option.none)

/-- Loop of `_expand_overrides` (domain/accumulation.py lines 301-308)
over the sorted rows; the bound is `retire_age + 1`. -/
def expandOverridesAux (bound : ℤ) :
    List GrowthOverrideRow → (ℤ → Option ℚ) → (ℤ → Option ℚ)
  | [], d => d
  | r :: rest, d =>
    let nextStart := match rest with
      | r2 :: _ => r2.fromAge
      | [] => bound
    let e := vrEnd r.fromAge r.years nextStart bound
    let d := (intRange r.fromAge e).foldl (fun d a => updSched d a r.rate) d
    expandOverridesAux bound rest d

/-- `_expand_overrides` (domain/accumulation.py lines 297-308). -/
def expandOverrides (rows : List GrowthOverrideRow) (startAge retireAge : ℤ) :
    ℤ → Option ℚ :=
  if rows.isEmpty then fun _ => Option.none
  else expandOverridesAux (retireAge + 1) (sortRows (fun r => r.fromAge) rows)
    (fun _ => Option.none)

/-- Loop of `_expand_spending` (domain/accumulation.py lines 315-322)
over the sorted rows. -/
def expandSpendingAux (bound : ℤ) :
    List SpendingRow → (ℤ → Option ℚ) → (ℤ → Option ℚ)
  | [], d => d
  | r :: rest, d =>
    let nextStart := match rest with
      | r2 :: _ => r2.fromAge
      | [] => bound
    let e := vrEnd r.fromAge r.years nextStart bound
    let d := (intRange r.fromAge e).foldl (fun d a => updSched d a r.annualSpending) d
    expandSpendingAux bound rest d

/-- `_expand_spending` (domain/accumulation.py lines 311-322). -/
def expandSpending (rows : List SpendingRow) (startAge fallbackEnd : ℤ) :
    ℤ → Option ℚ :=
  if rows.isEmpty then fun _ => Option.none
  else expandSpendingAux fallbackEnd (sortRows (fun r => r.fromAge) rows)
    (fun _ => Option.none)

/-- `_apply_spending` (domain/accumulation.py lines 325-332): pro-rata by
current balance share when the total is positive; the whole amount is
charged to the first account otherwise.  (With an empty balance list and
non-positive total the Python raises `IndexError`; that case is
unreachable from `accumulate_plan`, whose prepared plans always hold at
least one account, and is embedded as the empty list.) -/
def applySpending (balances : List ℚ) (spendingAmount : ℚ) : List ℚ :=
  let totalBefore := balances.sum
  if totalBefore ≤ 0 then
    match balances with
    | [] => []
    | b :: rest => (b - spendingAmount) :: rest
  else
    balances.map fun b => b - b / totalBefore * spendingAmount

/-- One iteration of the inner `accumulate_plan` loop
(domain/accumulation.py lines 138-180): state is `(balances,
inflation_factor)`, the emitted row is the `YearEntry`. -/
def accumStep (p : PreparedPlan) (baseYear : ℤ) (contribSch : List (ℤ → Option ℚ))
    (ovSch : List (ℤ → Option ℚ)) (spendSch : ℤ → Option ℚ) (scenario : Scenario)
    (s : List ℚ × ℚ) (q : ℕ × ℤ) : (List ℚ × ℚ) × YearEntry :=
  let age := q.2
  -- contributions at start of working year
  let balances := if age < p.retireAge then
      s.1.zipWith (fun b sch => b + ((sch age).getD 0)) contribSch
    else s.1
  -- spending deducted at retirement and beyond (`if spending_amount:`)
  let balances := if p.retireAge ≤ age then
      let amount := (spendSch age).getD 0
      if amount ≠ 0 then applySpending balances amount else balances
    else balances
  -- growth per account, honouring overrides
  let balances := balances.zipWith
    (fun b ov => b * (1 + ((ov age).getD scenario.nominalRate))) ovSch
  let totalNominal := balances.sum
  let snapshots := balances.zipWith
    (fun b acc => AccountSnapshot.mk acc.label b (b / s.2)) p.accounts
  ((balances, s.2 * (1 + p.inflationRate)),
   { scenario := scenario.kind, age := age, year := baseYear + q.1
     accounts := snapshots
     total := { nominal := totalNominal, real := totalNominal / s.2 } })

/-- `accumulate_plan` (domain/accumulation.py lines 119-182): one run per
scenario, entries concatenated in scenario order. -/
def accumulatePlan (p : PreparedPlan) (baseYear : ℤ) : AccumulationResult :=
  let contribSch := p.accounts.map fun a =>
    expandContributions a.contributions p.startAge p.retireAge
  let ovSch := p.accounts.map fun a =>
    expandOverrides a.growthOverrides p.startAge p.retireAge
  let spendSch := expandSpending p.spendingSchedule p.startAge (p.retireAge + 60)
  { entries := (p.scenarios.map fun scenario =>
      runSteps (accumStep p baseYear contribSch ovSch spendSch scenario)
        (p.accounts.map fun a => a.initialBalance, 1)
        (enumRange p.startAge p.retireAge)).flatten }

/-- Modelled from the spec: the `accumulations` entry point imported by
`backend/app.py` from `domain.accumulation` is not present under the
source tree (only its caller is).  Per the spec's propagation policy,
validation runs to completion first; "if any fatal error exists, zero
rows are produced and only the error list is returned", while gap
warnings never block computation. -/
def accumulations (plan : Plan) (baseYear : ℤ) :
    Except (List String) AccumulationResult :=
  let prepared := preparePlan plan
  if prepared.2.errors ≠ [] then Except.error prepared.2.errors
  else Except.ok (accumulatePlan prepared.1 baseYear)

end Accum

-- ---------------------------------------------------------------------
-- Claims
-- ---------------------------------------------------------------------

/-- C4: for every non-negative net withdrawal amount, non-negative basis,
and tax rate, the capital-gains withdrawal adjustment consumes basis
first tax-free and taxes only the excess: with
`basisConsumed = min netNeed basis` it returns
`gross = netNeed + (netNeed - basisConsumed) * rate` and a new basis of
`basis - basisConsumed`, which is never negative. -/
theorem capitalGains_consumes_basis_first (netAmount basis rate : ℚ)
    (hnet : 0 ≤ netAmount) (hbasis : 0 ≤ basis) :
    applyCapitalGainsWithdrawal netAmount basis rate =
      (netAmount + (netAmount - min netAmount basis) * rate,
       basis - min netAmount basis) ∧
    0 ≤ basis - min netAmount basis := by
  have hused : min netAmount basis ≤ basis := min_le_right _ _
  have hle : min netAmount basis ≤ netAmount := min_le_left _ _
  refine ⟨?_, by simpa using hused⟩
  unfold applyCapitalGainsWithdrawal
  simp only [max_eq_left hbasis, max_eq_right (sub_nonneg.mpr hle),
    max_eq_right (sub_nonneg.mpr hused)]

/-- Witness for C4 at `net = 5`, `basis = 3`, `rate = 1/2`. -/
theorem capitalGains_consumes_basis_first_witness :
    applyCapitalGainsWithdrawal 5 3 (1 / 2) =
      (5 + (5 - min 5 3) * (1 / 2), 3 - min (5 : ℚ) 3) ∧
    0 ≤ (3 : ℚ) - min 5 3 :=
  capitalGains_consumes_basis_first 5 3 (1 / 2) (by norm_num) (by norm_num)

/-- C7: the multi-account withdrawal allocator charges every account its
pro-rata share `balance_i / total * need` when the total balance is
strictly positive, and charges the whole need to the first account,
leaving the rest untouched, when the total is non-positive. -/
theorem applySpending_pro_rata (balances : List ℚ) (need : ℚ) :
    ((0 : ℚ) < balances.sum →
      ∀ i : ℕ, (Accum.applySpending balances need)[i]? =
        (balances[i]?).map fun b => b - b / balances.sum * need) ∧
    (balances.sum ≤ 0 →
      ∀ b0 rest, balances = b0 :: rest →
        Accum.applySpending balances need = (b0 - need) :: rest) := by
  constructor
  · intro hpos i
    unfold Accum.applySpending
    rw [if_neg (not_le.mpr hpos)]
    exact List.getElem?_map ..
  · intro hnp b0 rest hb
    subst hb
    unfold Accum.applySpending
    rw [if_pos hnp]

/-- Witness for C7: pro-rata at `[4, 6]` (position 1), degenerate at
`[-4, 2]`. -/
theorem applySpending_pro_rata_witness :
    ((Accum.applySpending [4, 6] 5)[1]? =
      (([4, 6] : List ℚ)[1]?).map fun b => b - b / ([4, 6] : List ℚ).sum * 5) ∧
    Accum.applySpending [-4, 2] 7 = ((-4 : ℚ) - 7) :: [2] :=
  ⟨(applySpending_pro_rata [4, 6] 5).1 (by norm_num) 1,
   (applySpending_pro_rata [-4, 2] 7).2 (by norm_num) (-4) [2] rfl⟩

/-- Sum of the pro-rata shares subtracted from every element. -/
theorem sum_map_share (l : List ℚ) (T A : ℚ) :
    (l.map fun b => b - b / T * A).sum = l.sum - l.sum / T * A := by
  induction l with
  | nil => simp
  | cons x xs ih =>
    simp only [List.map_cons, List.sum_cons, ih]
    ring

/-- C9: for every non-empty balance vector, the multi-account withdrawal
allocation decreases the total of the balances by exactly the spending
amount, in both the pro-rata branch and the degenerate first-account
branch. -/
theorem applySpending_sum (balances : List ℚ) (need : ℚ) (h : balances ≠ []) :
    (Accum.applySpending balances need).sum = balances.sum - need := by
  unfold Accum.applySpending
  by_cases hT : balances.sum ≤ 0
  · rw [if_pos hT]
    match balances, h with
    | b :: rest, _ => simp [List.sum_cons]; ring
  · rw [if_neg hT, sum_map_share,
      div_self (by exact ne_of_gt (not_le.mp hT)), one_mul]

/-- Witness for C9 at `[4, 6]` with a withdrawal need of `5`. -/
theorem applySpending_sum_witness :
    (Accum.applySpending [4, 6] 5).sum = ([4, 6] : List ℚ).sum - 5 :=
  applySpending_sum [4, 6] 5 (by simp)

-- The §8 concrete scenario of the spec (also exercised by
-- tests/test_tax_treatment.py): one working year, one retirement year.

/-- Basic info of the concrete scenario: age 30, retirement at 31,
savings 1000, retirement spending 1000 today's dollars. -/
def basicC1 : BasicInfo := ⟨30, 31, 1000, 1000⟩

/-- Growth assumptions of the concrete scenario: 10% nominal growth,
zero inflation, zero margins. -/
def growthC1 : GrowthAssumptions := ⟨0, 0, 1 / 10, 0⟩

/-- Savings plan of the concrete scenario: no contribution rules, entry
taxation at 20%. -/
def planC1 : SavingsPlan := ⟨[], TaxTreatment.entry, 1 / 5⟩

section
attribute [local semireducible] Rat.mul Rat.add Rat.sub Rat.inv

/-- C1: on the concrete input plan (currentAge 30, retirementAge 31,
currentSavings 1000, 10% nominal growth with zero margin, zero
inflation, retirement spending 1000 today's dollars,
yearsAfterRetirement 0, entry taxation at 20%, no contribution rules)
the engine's average-scenario ending balance in the final output row is
exactly 110: the single working year grows 1000 to 1100, and the
retirement year subtracts the 1000 withdrawal before applying growth,
`(1100 - 1000) * 1.10 = 110`. -/
theorem concrete_scenario_final_avg_balance :
    ((projectSavingsWithRetirement basicC1 growthC1 planC1 2024 0 0).getLast?).map
      (fun r => r.savings.avg) = some 110 := by
  decide

end

/-- Working-year shape of one `simulate_scenario` step: no spending, and
the ending balance is the starting balance grown first with the
contribution added afterwards. -/
theorem simStep_working (plan : PlanInputs) (rates : ScenarioRates)
    (items : List RetirementSpendingConfig) (s : SimState) (p : ℕ × ℤ)
    (h : p.2 < plan.retirementAge) :
    (simStep plan rates items s p).2.spending = 0 ∧
    (simStep plan rates items s p).2.endingBalance =
      (simStep plan rates items s p).2.startingBalance * (1 + rates.nominalGrowth) +
        (simStep plan rates items s p).2.contributions := by
  constructor
  · simp [simStep, if_neg (not_le.mpr h)]
  · simp only [simStep, if_neg (not_le.mpr h)]
    ring

/-- The age recorded by a `simulate_scenario` step is the loop age. -/
theorem simStep_age (plan : PlanInputs) (rates : ScenarioRates)
    (items : List RetirementSpendingConfig) (s : SimState) (p : ℕ × ℤ) :
    (simStep plan rates items s p).2.age = p.2 := rfl

/-- C2: the contribution earns no growth in the year it is made.  In
`simulate_scenario`, every working-year row satisfies
`ending = starting * (1 + growth) + contribution` with zero spending;
the working-year branch of `project_savings_with_retirement` and every
year of `project_savings_table` update each scenario balance by
`balance * (1 + rate) + taxAdjustedContribution`. -/
theorem contribution_added_after_growth :
    (∀ (plan : PlanInputs) (sc : Scenario) (yar : ℤ) (r : SingleScenarioYear),
      r ∈ simulateScenario plan sc yar → r.age < plan.retirementAge →
      r.spending = 0 ∧
      r.endingBalance =
        r.startingBalance * (1 + (ratesForScenario plan.growth sc).nominalGrowth) +
          r.contributions) ∧
    (∀ (c : RetCtx) (s : RetState) (p : ℕ × ℤ), p.2 < c.retirementAge →
      ((retStep c s p).1.balMin = s.balMin * (1 + c.gMin) +
          contributionAfterTax (contributionAt c.intervals p.2) c.taxTreatment c.taxRate ∧
        (retStep c s p).1.balAvg = s.balAvg * (1 + c.gAvg) +
          contributionAfterTax (contributionAt c.intervals p.2) c.taxTreatment c.taxRate ∧
        (retStep c s p).1.balMax = s.balMax * (1 + c.gMax) +
          contributionAfterTax (contributionAt c.intervals p.2) c.taxTreatment c.taxRate)) ∧
    (∀ (c : TableCtx) (s : TableState) (p : ℕ × ℤ),
      (tableStep c s p).1.balMin = s.balMin * (1 + c.gMin) +
          contributionAfterTax (contributionAt c.intervals p.2) c.taxTreatment c.taxRate ∧
        (tableStep c s p).1.balAvg = s.balAvg * (1 + c.gAvg) +
          contributionAfterTax (contributionAt c.intervals p.2) c.taxTreatment c.taxRate ∧
        (tableStep c s p).1.balMax = s.balMax * (1 + c.gMax) +
          contributionAfterTax (contributionAt c.intervals p.2) c.taxTreatment c.taxRate) := by
  refine ⟨?_, ?_, ?_⟩
  · intro plan sc yar r hr hage
    obtain ⟨s', p, hp, rfl⟩ := mem_runSteps _ _ _ _ hr
    exact simStep_working plan _ _ s' p (by rwa [simStep_age] at hage)
  · intro c s p h
    refine ⟨?_, ?_, ?_⟩ <;> simp [retStep, if_pos h]
  · intro c s p
    refine ⟨?_, ?_, ?_⟩ <;> simp [tableStep]

/-- The plan used by the C2 and C8 witnesses (one working year before
retirement at 31). -/
def planInputsW : PlanInputs :=
  { currentAge := 30, retirementAge := 31, currentSavings := 1000
    desiredRetirementSpendingToday := 1000, growth := growthC1 }

/-- The first row of the average scenario over `planInputsW`. -/
def rowW : SingleScenarioYear :=
  { age := 30, yearIndex := 0, startingBalance := 1000, contributions := 0
    spending := 0, endingBalance := 1100 }

section
attribute [local semireducible] Rat.mul Rat.add Rat.sub Rat.inv

/-- Witness for C2: the working-year row of the concrete plan. -/
theorem contribution_added_after_growth_witness :
    rowW.spending = 0 ∧
    rowW.endingBalance =
      rowW.startingBalance *
          (1 + (ratesForScenario planInputsW.growth Scenario.avg).nominalGrowth) +
        rowW.contributions :=
  contribution_added_after_growth.1 planInputsW Scenario.avg 0 rowW
    (by decide) (by decide)

end

-- ---------------------------------------------------------------------
-- C8 : scenario alignment and aggregation
-- ---------------------------------------------------------------------

/-- The `(age, yearIndex)` key sequence of a scenario run depends only on
the simulated age range, not on the scenario. -/
theorem simulateScenario_keys (plan : PlanInputs) (sc : Scenario) (yar : ℤ) :
    (simulateScenario plan sc yar).map (fun r => (r.age, r.yearIndex)) =
      (enumRange plan.currentAge (plan.retirementAge + yar)).map fun p => (p.2, p.1) := by
  simp only [simulateScenario]
  exact map_runSteps
    (simStep plan (ratesForScenario plan.growth sc) (getEffectiveSpendingItems plan yar))
    (fun r => (r.age, r.yearIndex)) (fun p => (p.2, p.1)) (fun _ _ => rfl) _ _

theorem length_simulateScenario (plan : PlanInputs) (sc : Scenario) (yar : ℤ) :
    (simulateScenario plan sc yar).length =
      (enumRange plan.currentAge (plan.retirementAge + yar)).length :=
  length_runSteps ..

theorem length_zipWith3 (f : α → β → γ → δ) (l1 : List α) (l2 : List β) (l3 : List γ) :
    (List.zipWith3 f l1 l2 l3).length =
      Nat.min l1.length (Nat.min l2.length l3.length) := by
  induction l1 generalizing l2 l3 with
  | nil => simp [List.zipWith3]
  | cons a as ih =>
    cases l2 with
    | nil => simp [List.zipWith3]
    | cons b bs =>
      cases l3 with
      | nil => simp [List.zipWith3]
      | cons c cs => simp [List.zipWith3, ih, Nat.succ_min_succ]

theorem getElem?_zipWith3 (f : α → β → γ → δ) (l1 : List α) (l2 : List β)
    (l3 : List γ) (i : ℕ) (a : α) (b : β) (c : γ) (h1 : l1[i]? = some a)
    (h2 : l2[i]? = some b) (h3 : l3[i]? = some c) :
    (List.zipWith3 f l1 l2 l3)[i]? = some (f a b c) := by
  induction l1 generalizing l2 l3 i with
  | nil => simp at h1
  | cons x xs ih =>
    cases l2 with
    | nil => simp at h2
    | cons y ys =>
      cases l3 with
      | nil => simp at h3
      | cons z zs =>
        cases i with
        | zero =>
          simp only [List.getElem?_cons_zero, Option.some.injEq] at h1 h2 h3
          simp [List.zipWith3, h1, h2, h3]
        | succ n =>
          simp only [List.getElem?_cons_succ] at h1 h2 h3
          simpa [List.zipWith3] using ih _ _ _ h1 h2 h3

/-- C8: for every plan and horizon, the three scenario runs have the same
length and identical `(age, year_index)` keys at every position, so the
aggregator's per-row equality assertions cannot fail; `project_plan`
emits exactly one aggregated row per position, combining the three
scenario rows at that position. -/
theorem scenario_runs_aligned (plan : PlanInputs) (yar : ℤ) :
    (simulateScenario plan Scenario.min yar).length =
      (simulateScenario plan Scenario.avg yar).length ∧
    (simulateScenario plan Scenario.avg yar).length =
      (simulateScenario plan Scenario.max yar).length ∧
    (∀ sc sc' : Scenario, ∀ i : ℕ,
      ((simulateScenario plan sc yar)[i]?).map (fun r => (r.age, r.yearIndex)) =
        ((simulateScenario plan sc' yar)[i]?).map fun r => (r.age, r.yearIndex)) ∧
    (projectPlan plan yar).length = (simulateScenario plan Scenario.min yar).length ∧
    (∀ i : ℕ, ∀ rm ra rx : SingleScenarioYear,
      (simulateScenario plan Scenario.min yar)[i]? = some rm →
      (simulateScenario plan Scenario.avg yar)[i]? = some ra →
      (simulateScenario plan Scenario.max yar)[i]? = some rx →
      (projectPlan plan yar)[i]? = some (combineRows rm ra rx)) := by
  refine ⟨?_, ?_, ?_, ?_, ?_⟩
  · rw [length_simulateScenario, length_simulateScenario]
  · rw [length_simulateScenario, length_simulateScenario]
  · intro sc sc' i
    have h := congrArg (fun l => l[i]?)
      ((simulateScenario_keys plan sc yar).trans
        (simulateScenario_keys plan sc' yar).symm)
    simpa [List.getElem?_map] using h
  · show (List.zipWith3 ..).length = _
    rw [length_zipWith3, length_simulateScenario, length_simulateScenario,
      length_simulateScenario]
    simp
  · intro i rm ra rx hm ha hx
    exact getElem?_zipWith3 combineRows _ _ _ i rm ra rx hm ha hx

section
attribute [local semireducible] Rat.mul Rat.add Rat.sub Rat.inv

/-- Witness for C8: position 0 of the three runs over the concrete plan
aggregates into the combined row. -/
theorem scenario_runs_aligned_witness :
    (projectPlan planInputsW 0)[0]? = some (combineRows rowW rowW rowW) :=
  (scenario_runs_aligned planInputsW 0).2.2.2.2 0 rowW rowW rowW
    (by decide) (by decide) (by decide)

end

-- ---------------------------------------------------------------------
-- C6 : interval building and clamping
-- ---------------------------------------------------------------------

/-- A contribution rule whose explicit duration runs far past the stop
age. -/
def ruleC6 : ContributionBreakpoint :=
  { fromAge := 30, base := 1, changeYoY := 0, years := some 100 }

/-- Counterexample for C6: `_make_intervals` does not clamp interval ends
to the stop age — the single rule `fromAge = 30, years = 100` with
`stopAge = 31` produces an interval ending at 130 > 31. -/
theorem make_intervals_not_clamped_counterexample :
    ¬ ∀ t ∈ mkIntervals [ruleC6] 31, t.2.1 ≤ 31 := by decide

/-- Starts of the built intervals are exactly the sorted rule start
ages. -/
theorem mkIntervalsAux_starts (stopAge : ℤ) (l : List ContributionBreakpoint) :
    (mkIntervalsAux stopAge l).map (fun t => t.1) = l.map fun r => r.fromAge := by
  induction l with
  | nil => rfl
  | cons r rest ih => simp [mkIntervalsAux, ih]

/-- An explicit positive duration fixes the interval end at
`fromAge + years`, with no clamping to the stop age. -/
theorem mkIntervalsAux_years_pos (stopAge : ℤ) (l : List ContributionBreakpoint)
    (s e : ℤ) (r : ContributionBreakpoint) (y : ℤ)
    (hm : (s, e, r) ∈ mkIntervalsAux stopAge l) (hy : r.years = some y)
    (hpos : 0 < y) : e = r.fromAge + y := by
  induction l with
  | nil => cases hm
  | cons r0 rest ih =>
    simp only [mkIntervalsAux, List.mem_cons] at hm
    rcases hm with h | h
    · rw [Prod.ext_iff, Prod.ext_iff] at h
      obtain ⟨hs, he, hr⟩ := h
      simp only at hs he hr
      subst hr
      rw [hy] at he
      simp only at he
      rw [if_neg (by omega)] at he
      omega
    · exact ih h

/-- C6 as amended: `_make_intervals` sorts rules by `fromAge` ascending
and sets each end from the explicit duration or the next rule's start,
but does not clamp ends to the stop age (a positive explicit duration
always yields `end = fromAge + years`, even past `stopAge`); the
clamping `end = min(end, stopAge)` instead lives in the accumulation
engine's row handling, where every computed interval end obeys the
bound. -/
theorem make_intervals_sorted_and_clamp_in_accum :
    (∀ (rows : List ContributionBreakpoint) (stopAge : ℤ),
      (mkIntervals rows stopAge).Pairwise fun t t' => t.1 ≤ t'.1) ∧
    (∀ (rows : List ContributionBreakpoint) (stopAge : ℤ) (s e : ℤ)
       (r : ContributionBreakpoint) (y : ℤ),
      (s, e, r) ∈ mkIntervals rows stopAge → r.years = some y → 0 < y →
      e = r.fromAge + y) ∧
    (∀ (fromAge : ℤ) (years : Option ℤ) (nextStart bound : ℤ),
      Accum.vrEnd fromAge years nextStart bound ≤ bound) := by
  refine ⟨?_, ?_, ?_⟩
  · intro rows stopAge
    haveI htot : IsTotal ContributionBreakpoint (fun a b => a.fromAge ≤ b.fromAge) :=
      ⟨fun a b => le_total _ _⟩
    haveI htr : IsTrans ContributionBreakpoint (fun a b => a.fromAge ≤ b.fromAge) :=
      ⟨fun _ _ _ h1 h2 => le_trans h1 h2⟩
    have hs : (sortBreakpoints rows).Sorted fun a b => a.fromAge ≤ b.fromAge :=
      List.sorted_insertionSort _ _
    have hmap := mkIntervalsAux_starts stopAge (sortBreakpoints rows)
    have : ((mkIntervals rows stopAge).map fun t => t.1).Pairwise (· ≤ ·) := by
      rw [mkIntervals, hmap, List.pairwise_map]
      exact hs
    rwa [List.pairwise_map] at this
  · intro rows stopAge s e r y hm hy hpos
    exact mkIntervalsAux_years_pos stopAge _ s e r y hm hy hpos
  · intro fromAge years nextStart bound
    unfold Accum.vrEnd
    exact min_le_right _ _

/-- Witness for C6's amended claim, at the counterexample rule itself:
the produced end is `30 + 100`, past the stop age `31`. -/
theorem make_intervals_sorted_and_clamp_in_accum_witness :
    (130 : ℤ) = ruleC6.fromAge + 100 :=
  make_intervals_sorted_and_clamp_in_accum.2.1 [ruleC6] 31 30 130 ruleC6 100
    (by decide) (by decide) (by decide)

-- ---------------------------------------------------------------------
-- C10 : spending items starting before retirement never spend
-- ---------------------------------------------------------------------

/-- When an item's first active age differs from the current loop age and
its remembered previous spending is `0`, the item is either skipped or
records `0` again (`prev * (1 + inflation) = 0`). -/
theorem spendItemStep_stays_zero (infl : ℚ) (curAge : ℤ)
    (item : RetirementSpendingConfig) (age : ℤ) (h : item.fromAge ≠ age) :
    spendItemStep infl curAge item 0 age = Option.none ∨
    spendItemStep infl curAge item 0 age = some 0 := by
  have hne : ¬ age = item.fromAge := fun hh => h hh.symm
  unfold spendItemStep
  by_cases h1 : age < item.fromAge
  · simp [h1]
  · cases hyy : item.years with
    | none => simp [h1, hne]
    | some y =>
      by_cases h2 : item.fromAge + y ≤ age
      · simp [h1, hyy, h2]
      · simp [h1, hne, hyy, h2]

/-- The spending fold over items numbered from `n` never touches a map
index below `n`. -/
theorem spendFoldAux_prev_lt (infl : ℚ) (curAge age : ℤ)
    (items : List RetirementSpendingConfig) (n : ℕ) (acc : ℚ × (ℕ → ℚ))
    (idx : ℕ) (hlt : idx < n) :
    (spendFoldAux infl curAge age n items acc).2 idx = acc.2 idx := by
  induction items generalizing n acc with
  | nil => rfl
  | cons item rest ih =>
    simp only [spendFoldAux]
    cases hstep : spendItemStep infl curAge item (acc.2 n) age with
    | none => simpa [hstep] using ih (n + 1) acc (by omega)
    | some v =>
      have h := ih (n + 1) (acc.1 + v, fun j => if j = n then v else acc.2 j) (by omega)
      simp only [hstep] at h ⊢
      rw [h]
      exact if_neg (by omega)

/-- If the `k`-th item (numbering from `n`) starts at an age other than
the loop age and its map slot is `0`, the spending fold leaves that slot
at `0`. -/
theorem spendFoldAux_prev_zero (infl : ℚ) (curAge age : ℤ)
    (items : List RetirementSpendingConfig) (n k : ℕ) (acc : ℚ × (ℕ → ℚ))
    (item : RetirementSpendingConfig) (hitem : items[k]? = some item)
    (hne : item.fromAge ≠ age) (h0 : acc.2 (n + k) = 0) :
    (spendFoldAux infl curAge age n items acc).2 (n + k) = 0 := by
  induction items generalizing n k acc with
  | nil => simp at hitem
  | cons it rest ih =>
    cases k with
    | zero =>
      simp only [List.getElem?_cons_zero, Option.some.injEq] at hitem
      subst hitem
      simp only [Nat.add_zero] at h0 ⊢
      simp only [spendFoldAux]
      rw [h0]
      rcases spendItemStep_stays_zero infl curAge it age hne with hz | hz
      · rw [hz]
        rw [spendFoldAux_prev_lt infl curAge age rest (n + 1) acc n (by omega)]
        exact h0
      · rw [hz]
        rw [spendFoldAux_prev_lt infl curAge age rest (n + 1) _ n (by omega)]
        simp
    | succ m =>
      simp only [List.getElem?_cons_succ] at hitem
      have hidx : n + (m + 1) = (n + 1) + m := by omega
      simp only [spendFoldAux]
      cases hstep : spendItemStep infl curAge it (acc.2 n) age with
      | none =>
        have h0' : acc.2 ((n + 1) + m) = 0 := by rw [← hidx]; exact h0
        have h := ih (n + 1) m acc hitem h0'
        rw [hidx]
        simpa [hstep] using h
      | some v =>
        have h0' : (fun j => if j = n then v else acc.2 j) ((n + 1) + m) = 0 := by
          simp only
          rw [if_neg (by omega)]
          rw [← hidx]
          exact h0
        have h := ih (n + 1) m (acc.1 + v, fun j => if j = n then v else acc.2 j) hitem h0'
        rw [hidx]
        simpa [hstep] using h

/-- One simulation step keeps the `prev_spend_by_item` slot of an item
that starts before retirement at `0`. -/
theorem simStep_prev_zero (plan : PlanInputs) (rates : ScenarioRates)
    (items : List RetirementSpendingConfig) (s : SimState) (p : ℕ × ℤ)
    (idx : ℕ) (item : RetirementSpendingConfig) (hitem : items[idx]? = some item)
    (hlt : item.fromAge < plan.retirementAge) (h0 : s.prev idx = 0) :
    (simStep plan rates items s p).1.prev idx = 0 := by
  by_cases hage : plan.retirementAge ≤ p.2
  · have hne : item.fromAge ≠ p.2 := by omega
    simp only [simStep, if_pos hage]
    simpa [spendFold] using
      spendFoldAux_prev_zero rates.inflation plan.currentAge p.2 items 0 idx
        (0, s.prev) item hitem hne (by simpa using h0)
  · simp only [simStep, if_neg hage]
    exact h0

/-- A property preserved by every step holds for every state along a
`scanl` trajectory. -/
theorem scanl_invariant {f : σ → α → σ} {P : σ → Prop}
    (hstep : ∀ s a, P s → P (f s a)) (s0 : σ) (l : List α) (h0 : P s0) :
    ∀ s ∈ l.scanl f s0, P s := by
  induction l generalizing s0 with
  | nil =>
    intro s hs
    simp only [List.scanl_nil, List.mem_singleton] at hs
    exact hs ▸ h0
  | cons a as ih =>
    intro s hs
    rw [List.scanl_cons] at hs
    rcases List.mem_cons.mp hs with hs | hs
    · exact hs ▸ h0
    · exact ih (f s0 a) (hstep s0 a h0) s hs

/-- The successive loop states of `simulate_scenario` (initial state
included), for inspecting the `prev_spend_by_item` map. -/
def simStates (plan : PlanInputs) (sc : Scenario) (yar : ℤ) : List SimState :=
  (enumRange plan.currentAge (plan.retirementAge + yar)).scanl
    (fun s p => (simStep plan (ratesForScenario plan.growth sc)
      (getEffectiveSpendingItems plan yar) s p).1)
    ⟨plan.currentSavings + (plan.savingsAccounts.map fun a => a.initialBalance).sum,
     fun _ => 0⟩

/-- C10: a spending item whose `from_age` is strictly before the
retirement age contributes zero spending at every simulated age.
Spending is only evaluated for ages at or past retirement, where the
first-active-year branch (`age == from_age`) can no longer fire, so the
item's remembered previous spending never leaves its `0.0` default
(second conjunct) and each year it is either skipped or records
`prev * (1 + inflation) = 0` (first conjunct). -/
theorem pre_retirement_spending_item_inert :
    (∀ (infl : ℚ) (curAge : ℤ) (item : RetirementSpendingConfig) (age retAge : ℤ),
      item.fromAge < retAge → retAge ≤ age →
      (spendItemStep infl curAge item 0 age).getD 0 = 0) ∧
    (∀ (plan : PlanInputs) (sc : Scenario) (yar : ℤ) (idx : ℕ)
       (item : RetirementSpendingConfig),
      (getEffectiveSpendingItems plan yar)[idx]? = some item →
      item.fromAge < plan.retirementAge →
      ∀ s ∈ simStates plan sc yar, s.prev idx = 0) := by
  constructor
  · intro infl curAge item age retAge hlt hage
    rcases spendItemStep_stays_zero infl curAge item age (by omega) with hz | hz <;>
      simp [hz]
  · intro plan sc yar idx item hitem hlt
    exact scanl_invariant
      (fun s p h0 => simStep_prev_zero plan _ _ s p idx item hitem hlt h0) _ _ rfl

/-- The spending item used by the C10 witness: it starts before the
retirement age of `planInputsC10`. -/
def itemC10 : RetirementSpendingConfig :=
  { fromAge := 25, years := Option.none, annualSpendingToday := 500 }

/-- The plan used by the C10 witness. -/
def planInputsC10 : PlanInputs :=
  { currentAge := 30, retirementAge := 31, currentSavings := 1000
    desiredRetirementSpendingToday := 0, growth := growthC1
    spendingItems := [itemC10] }

/-- The head of a `scanl` trajectory is its initial state. -/
theorem self_mem_scanl (f : σ → α → σ) (s0 : σ) (l : List α) :
    s0 ∈ l.scanl f s0 := by
  cases l with
  | nil => simp
  | cons a as => rw [List.scanl_cons]; exact List.mem_cons_self ..

/-- Witness for C10: over `planInputsC10`, the pre-retirement item's slot
in the initial state of the average run is `0`, via the invariant. -/
theorem pre_retirement_spending_item_inert_witness :
    SimState.prev
      ⟨planInputsC10.currentSavings +
        (planInputsC10.savingsAccounts.map fun a => a.initialBalance).sum,
       fun _ => 0⟩ 0 = 0 :=
  pre_retirement_spending_item_inert.2 planInputsC10 Scenario.avg 5 0 itemC10
    (by rfl) (by decide) _ (self_mem_scanl ..)

-- ---------------------------------------------------------------------
-- C3 : the yearsAfterRetirement = 0 horizon
-- ---------------------------------------------------------------------

section
attribute [local semireducible] Rat.mul Rat.add Rat.sub Rat.inv

/-- Counterexample for C3: the plan with retirement spending 1000 (in
today's dollars) and `yearsAfterRetirement = 0` still simulates the
retirement-age year in `simulate_scenario`, but the default spending
item is created with `years = 0`, an empty active window — so zero
spending (not a positive amount) is computed there, and the balance
grows instead of being drawn down. -/
theorem retirement_year_zero_spending_counterexample :
    0 < planInputsW.desiredRetirementSpendingToday ∧
    (simulateScenario planInputsW Scenario.avg 0).map
      (fun r => (r.age, r.spending, r.endingBalance)) =
        [(30, 0, 1100), (31, 0, 1210)] ∧
    ¬ ∀ r ∈ simulateScenario planInputsW Scenario.avg 0,
        r.age = 31 → 0 < r.spending := by
  refine ⟨by decide, by decide, ?_⟩
  intro h
  have := h ⟨31, 1, 1100, 0, 0, 1210⟩ (by decide) rfl
  exact absurd this (by decide)

end

/-- A property preserved by every step holds for the state left by the
run. -/
theorem foldSteps_invariant {f : σ → α → σ × β} {P : σ → Prop} (l : List α)
    (s0 : σ) (h0 : P s0) (hstep : ∀ s a, a ∈ l → P s → P (f s a).1) :
    P (foldSteps f s0 l) := by
  induction l generalizing s0 with
  | nil => exact h0
  | cons a as ih =>
    exact ih (f s0 a).1 (hstep s0 a (List.mem_cons_self ..) h0)
      fun s a' ha' => hstep s a' (List.mem_cons_of_mem _ ha')

/-- Working-year steps of `project_savings_with_retirement` do not touch
the remembered previous spending. -/
theorem retStep_working_prev (c : RetCtx) (s : RetState) (p : ℕ × ℤ)
    (h : p.2 < c.retirementAge) :
    (retStep c s p).1.prevMin = s.prevMin ∧
    (retStep c s p).1.prevAvg = s.prevAvg ∧
    (retStep c s p).1.prevMax = s.prevMax := by
  refine ⟨?_, ?_, ?_⟩ <;> simp [retStep, if_pos h]

theorem retCtx_retirementAge (basic : BasicInfo) (assumptions : GrowthAssumptions)
    (plan : SavingsPlan) (year0 : ℤ) (scy : ℚ) :
    (retCtx basic assumptions plan year0 scy).retirementAge = basic.retirementAge := rfl

theorem retCtx_spend0Avg (basic : BasicInfo) (assumptions : GrowthAssumptions)
    (plan : SavingsPlan) (year0 : ℤ) (scy : ℚ) :
    (retCtx basic assumptions plan year0 scy).spend0Avg =
      if 0 < basic.retirementSpendingRaw then
        basic.retirementSpendingRaw * (1 + assumptions.annualInflation) ^
          (max 0 (basic.retirementAge - basic.currentAge))
      else 0 := rfl

/-- The loop state of `project_savings_with_retirement` after the
working years (ages strictly before retirement). -/
def retWorkState (basic : BasicInfo) (assumptions : GrowthAssumptions)
    (plan : SavingsPlan) (year0 : ℤ) (scy : ℚ) : RetState :=
  foldSteps (retStep (retCtx basic assumptions plan year0 scy)) (retInit basic)
    (enumRange basic.currentAge (basic.retirementAge - 1))

/-- The row recorded for the retirement-age year itself. -/
def retLastRow (basic : BasicInfo) (assumptions : GrowthAssumptions)
    (plan : SavingsPlan) (year0 : ℤ) (scy : ℚ) : YearRowWithSpending :=
  (retStep (retCtx basic assumptions plan year0 scy)
    (retWorkState basic assumptions plan year0 scy)
    ((basic.retirementAge - basic.currentAge).toNat, basic.retirementAge)).2

/-- No previous spending is remembered before the first retirement
year. -/
theorem retWorkState_prev (basic : BasicInfo) (assumptions : GrowthAssumptions)
    (plan : SavingsPlan) (year0 : ℤ) (scy : ℚ) :
    (retWorkState basic assumptions plan year0 scy).prevMin = Option.none ∧
    (retWorkState basic assumptions plan year0 scy).prevAvg = Option.none ∧
    (retWorkState basic assumptions plan year0 scy).prevMax = Option.none := by
  unfold retWorkState
  refine @foldSteps_invariant _ _ _ _
    (fun s : RetState => s.prevMin = Option.none ∧ s.prevAvg = Option.none ∧
      s.prevMax = Option.none) _ _ ⟨rfl, rfl, rfl⟩ ?_
  intro s a ha hP
  have hmem := mem_enumRange _ _ _ ha
  have hlt : a.2 < (retCtx basic assumptions plan year0 scy).retirementAge := by
    rw [retCtx_retirementAge]
    omega
  have hw := retStep_working_prev _ s a hlt
  exact ⟨hw.1.trans hP.1, hw.2.1.trans hP.2.1, hw.2.2.trans hP.2.2⟩

/-- With `yearsAfterRetirement = 0` the final row of
`project_savings_with_retirement` is the retirement-age step applied to
the post-working state. -/
theorem pswr_yar0_getLast (basic : BasicInfo) (assumptions : GrowthAssumptions)
    (plan : SavingsPlan) (year0 : ℤ) (scy : ℚ)
    (hca : basic.currentAge ≤ basic.retirementAge) :
    (projectSavingsWithRetirement basic assumptions plan year0 0 scy).getLast? =
      some (retLastRow basic assumptions plan year0 scy) := by
  unfold projectSavingsWithRetirement retLastRow retWorkState
  have h0 : basic.retirementAge + max (0 : ℤ) 0 = basic.retirementAge := by simp
  rw [h0]
  dsimp only
  rw [enumRange_append_last basic.currentAge basic.retirementAge hca,
    runSteps_append]
  exact List.getLast?_concat _

/-- With no explicit spending items and `yearsAfterRetirement = 0`, the
default spending item of `simulate_scenario` gets `years = 0` — an empty
active window — so the run still covers every age up to the retirement
age but records zero spending everywhere. -/
theorem simulateScenario_default_yar0_spending (plan : PlanInputs) (sc : Scenario)
    (hempty : plan.spendingItems = []) :
    (simulateScenario plan sc 0).map (fun r => (r.age, r.spending)) =
      (enumRange plan.currentAge plan.retirementAge).map fun p => (p.2, 0) := by
  have hitems : getEffectiveSpendingItems plan 0 =
      [{ name := "Default retirement spending", fromAge := plan.retirementAge,
         years := some 0,
         annualSpendingToday := plan.desiredRetirementSpendingToday }] := by
    simp [getEffectiveSpendingItems, hempty]
  have hz : plan.retirementAge + (0 : ℤ) = plan.retirementAge := by ring
  simp only [simulateScenario, hitems, hz]
  refine map_runSteps _ (fun r : SingleScenarioYear => (r.age, r.spending))
    (fun p : ℕ × ℤ => (p.2, 0)) ?_ _ _
  intro s p
  by_cases hage : plan.retirementAge ≤ p.2
  · have hskip : spendItemStep (ratesForScenario plan.growth sc).inflation
        plan.currentAge
        { name := "Default retirement spending", fromAge := plan.retirementAge,
          years := some 0,
          annualSpendingToday := plan.desiredRetirementSpendingToday }
        (s.prev 0) p.2 = Option.none := by
      unfold spendItemStep
      rw [if_neg (by simpa using not_lt.mpr hage)]
      simpa using hage
    simp [simStep, if_pos hage, spendFold, spendFoldAux, hskip]
  · simp [simStep, if_neg hage]

theorem retCtx_spend0Min (basic : BasicInfo) (assumptions : GrowthAssumptions)
    (plan : SavingsPlan) (year0 : ℤ) (scy : ℚ) :
    (retCtx basic assumptions plan year0 scy).spend0Min =
      if 0 < basic.retirementSpendingRaw then
        basic.retirementSpendingRaw *
          (1 + (assumptions.annualInflation + assumptions.inflationErrorMargin)) ^
            (max 0 (basic.retirementAge - basic.currentAge))
      else 0 := rfl

theorem retCtx_spend0Max (basic : BasicInfo) (assumptions : GrowthAssumptions)
    (plan : SavingsPlan) (year0 : ℤ) (scy : ℚ) :
    (retCtx basic assumptions plan year0 scy).spend0Max =
      if 0 < basic.retirementSpendingRaw then
        basic.retirementSpendingRaw *
          (1 + (assumptions.annualInflation - assumptions.inflationErrorMargin)) ^
            (max 0 (basic.retirementAge - basic.currentAge))
      else 0 := rfl

/-- A first retirement year takes the inflation-grown base spending. -/
theorem nextSpend_none (base0 infl scy : ℚ) (h : 0 < base0) :
    nextSpend base0 Option.none infl scy = base0 := by
  unfold nextSpend
  rw [if_neg (not_le.mpr h)]

/-- The retirement-age row records the per-band base spending and an
ending balance with that spending (tax-adjusted) subtracted before
growth. -/
theorem retLastRow_fields (basic : BasicInfo) (assumptions : GrowthAssumptions)
    (plan : SavingsPlan) (year0 : ℤ) (scy : ℚ)
    (h4Min : 0 < (retCtx basic assumptions plan year0 scy).spend0Min)
    (h4Avg : 0 < (retCtx basic assumptions plan year0 scy).spend0Avg)
    (h4Max : 0 < (retCtx basic assumptions plan year0 scy).spend0Max) :
    (retLastRow basic assumptions plan year0 scy).age = basic.retirementAge ∧
    (retLastRow basic assumptions plan year0 scy).spending =
      ⟨round2 (retCtx basic assumptions plan year0 scy).spend0Min,
       round2 (retCtx basic assumptions plan year0 scy).spend0Avg,
       round2 (retCtx basic assumptions plan year0 scy).spend0Max⟩ ∧
    (retLastRow basic assumptions plan year0 scy).savings =
      ⟨round2 (((retWorkState basic assumptions plan year0 scy).balMin -
          (retirementTaxedSpend (retCtx basic assumptions plan year0 scy).taxTreatment
            (retCtx basic assumptions plan year0 scy).taxRate
            (retCtx basic assumptions plan year0 scy).spend0Min
            (retWorkState basic assumptions plan year0 scy).basisMin).1) *
        (1 + (retCtx basic assumptions plan year0 scy).gMin)),
       round2 (((retWorkState basic assumptions plan year0 scy).balAvg -
          (retirementTaxedSpend (retCtx basic assumptions plan year0 scy).taxTreatment
            (retCtx basic assumptions plan year0 scy).taxRate
            (retCtx basic assumptions plan year0 scy).spend0Avg
            (retWorkState basic assumptions plan year0 scy).basisAvg).1) *
        (1 + (retCtx basic assumptions plan year0 scy).gAvg)),
       round2 (((retWorkState basic assumptions plan year0 scy).balMax -
          (retirementTaxedSpend (retCtx basic assumptions plan year0 scy).taxTreatment
            (retCtx basic assumptions plan year0 scy).taxRate
            (retCtx basic assumptions plan year0 scy).spend0Max
            (retWorkState basic assumptions plan year0 scy).basisMax).1) *
        (1 + (retCtx basic assumptions plan year0 scy).gMax))⟩ := by
  have hnot : ¬ (basic.retirementAge < (retCtx basic assumptions plan year0 scy).retirementAge) := by
    rw [retCtx_retirementAge]
    exact lt_irrefl _
  have hprev := retWorkState_prev basic assumptions plan year0 scy
  unfold retLastRow
  simp only [retStep, if_neg hnot]
  rw [hprev.1, hprev.2.1, hprev.2.2, nextSpend_none _ _ _ h4Min,
    nextSpend_none _ _ _ h4Avg, nextSpend_none _ _ _ h4Max]
  refine ⟨?_, ?_, ?_⟩ <;> first
  | exact trivial
  | rfl

/-- C3 as amended: with `yearsAfterRetirement = 0` the horizon still
includes the retirement-age year.  In `project_savings_with_retirement`
a positive spending amount — the today's-dollar figure grown by each
band's inflation to retirement age — is computed and subtracted (before
growth) in that final year.  In `simulate_scenario`, however, the
default spending item is created with `years = 0`, so its window is
empty and zero spending is recorded at every simulated age, the
retirement-age year included. -/
theorem yar_zero_retirement_year_spending (basic : BasicInfo)
    (assumptions : GrowthAssumptions) (plan : SavingsPlan) (year0 : ℤ) (scy : ℚ)
    (hca : basic.currentAge ≤ basic.retirementAge)
    (hraw : 0 < basic.retirementSpendingRaw)
    (hinfMin : 0 < 1 + (assumptions.annualInflation - assumptions.inflationErrorMargin))
    (hinfAvg : 0 < 1 + assumptions.annualInflation)
    (hinfMax : 0 < 1 + (assumptions.annualInflation + assumptions.inflationErrorMargin)) :
    ((projectSavingsWithRetirement basic assumptions plan year0 0 scy).getLast? =
      some (retLastRow basic assumptions plan year0 scy)) ∧
    (retLastRow basic assumptions plan year0 scy).age = basic.retirementAge ∧
    (0 < (retCtx basic assumptions plan year0 scy).spend0Min ∧
     0 < (retCtx basic assumptions plan year0 scy).spend0Avg ∧
     0 < (retCtx basic assumptions plan year0 scy).spend0Max) ∧
    (retCtx basic assumptions plan year0 scy).spend0Avg =
      basic.retirementSpendingRaw * (1 + assumptions.annualInflation) ^
        (max 0 (basic.retirementAge - basic.currentAge)) ∧
    (retLastRow basic assumptions plan year0 scy).spending =
      ⟨round2 (retCtx basic assumptions plan year0 scy).spend0Min,
       round2 (retCtx basic assumptions plan year0 scy).spend0Avg,
       round2 (retCtx basic assumptions plan year0 scy).spend0Max⟩ ∧
    (retLastRow basic assumptions plan year0 scy).savings =
      ⟨round2 (((retWorkState basic assumptions plan year0 scy).balMin -
          (retirementTaxedSpend (retCtx basic assumptions plan year0 scy).taxTreatment
            (retCtx basic assumptions plan year0 scy).taxRate
            (retCtx basic assumptions plan year0 scy).spend0Min
            (retWorkState basic assumptions plan year0 scy).basisMin).1) *
        (1 + (retCtx basic assumptions plan year0 scy).gMin)),
       round2 (((retWorkState basic assumptions plan year0 scy).balAvg -
          (retirementTaxedSpend (retCtx basic assumptions plan year0 scy).taxTreatment
            (retCtx basic assumptions plan year0 scy).taxRate
            (retCtx basic assumptions plan year0 scy).spend0Avg
            (retWorkState basic assumptions plan year0 scy).basisAvg).1) *
        (1 + (retCtx basic assumptions plan year0 scy).gAvg)),
       round2 (((retWorkState basic assumptions plan year0 scy).balMax -
          (retirementTaxedSpend (retCtx basic assumptions plan year0 scy).taxTreatment
            (retCtx basic assumptions plan year0 scy).taxRate
            (retCtx basic assumptions plan year0 scy).spend0Max
            (retWorkState basic assumptions plan year0 scy).basisMax).1) *
        (1 + (retCtx basic assumptions plan year0 scy).gMax))⟩ ∧
    ∀ (plan2 : PlanInputs) (sc : Scenario), plan2.spendingItems = [] →
      (simulateScenario plan2 sc 0).map (fun r => (r.age, r.spending)) =
        (enumRange plan2.currentAge plan2.retirementAge).map fun p => (p.2, 0) := by
  have h4Min : 0 < (retCtx basic assumptions plan year0 scy).spend0Min := by
    rw [retCtx_spend0Min, if_pos hraw]
    exact mul_pos hraw (zpow_pos hinfMax _)
  have h4Avg : 0 < (retCtx basic assumptions plan year0 scy).spend0Avg := by
    rw [retCtx_spend0Avg, if_pos hraw]
    exact mul_pos hraw (zpow_pos hinfAvg _)
  have h4Max : 0 < (retCtx basic assumptions plan year0 scy).spend0Max := by
    rw [retCtx_spend0Max, if_pos hraw]
    exact mul_pos hraw (zpow_pos hinfMin _)
  obtain ⟨hage, hspend, hsav⟩ :=
    retLastRow_fields basic assumptions plan year0 scy h4Min h4Avg h4Max
  exact ⟨pswr_yar0_getLast basic assumptions plan year0 scy hca, hage,
    ⟨h4Min, h4Avg, h4Max⟩, by rw [retCtx_spend0Avg, if_pos hraw], hspend, hsav,
    fun plan2 sc h => simulateScenario_default_yar0_spending plan2 sc h⟩

/-- Witness for C3's amended claim at the concrete §8 scenario: the
average-band base spending at retirement is positive. -/
theorem yar_zero_retirement_year_spending_witness :
    0 < (retCtx basicC1 growthC1 planC1 2024 0).spend0Avg :=
  (yar_zero_retirement_year_spending basicC1 growthC1 planC1 2024 0
    (by norm_num [basicC1]) (by norm_num [basicC1]) (by norm_num [growthC1])
    (by norm_num [growthC1]) (by norm_num [growthC1])).2.2.1.2.1

namespace Accum

-- Spec-side reading of the validation contract (C5), written from the
-- spec's words: sort by fromAge; compute each interval end; then, for
-- each adjacent sorted pair, compare the current fromAge with the
-- previous interval's end — before it is an overlap error, strictly
-- after it a gap warning; an end not past its own fromAge is an invalid
-- window error.

/-- Each sorted row paired with its interval end. -/
def specRowEnds (fromAge : α → ℤ) (years : α → Option ℤ) (bound : ℤ) :
    List α → List (α × ℤ)
  | [] => []
  | r :: rest =>
    let nextStart := match rest with
      | r2 :: _ => fromAge r2
      | [] => bound
    (r, vrEnd (fromAge r) (years r) nextStart bound) ::
      specRowEnds fromAge years bound rest

/-- The `(previous end, current fromAge)` pairs examined, starting from
an optional already-tracked previous end. -/
def specPairsFrom (fromAge : α → ℤ) (years : α → Option ℤ) (bound : ℤ) :
    Option ℤ → List α → List (ℤ × ℤ)
  | _, [] => []
  | pe, r :: rest =>
    let nextStart := match rest with
      | r2 :: _ => fromAge r2
      | [] => bound
    let e := vrEnd (fromAge r) (years r) nextStart bound
    (match pe with
      | some p => [(p, fromAge r)]
      | Option.none => []) ++ specPairsFrom fromAge years bound (some e) rest

/-- One invalid-window error per sorted row whose end is not past its
start. -/
def specInvalidErrors (fromAge : α → ℤ) (years : α → Option ℤ) (bound : ℤ)
    (label : String) (rows : List α) : List String :=
  (specRowEnds fromAge years bound (sortRows fromAge rows)).bind
    fun re => if re.2 ≤ fromAge re.1 then [invalidMsg label (fromAge re.1)] else []

/-- One overlap error per adjacent sorted pair whose fromAge is before
the previous interval's end. -/
def specOverlapErrors (fromAge : α → ℤ) (years : α → Option ℤ) (bound : ℤ)
    (label : String) (rows : List α) : List String :=
  (specPairsFrom fromAge years bound Option.none (sortRows fromAge rows)).bind
    fun pr => if pr.2 < pr.1 then [overlapMsg label pr.2 pr.1] else []

/-- One gap warning per adjacent sorted pair whose fromAge is strictly
after the previous interval's end. -/
def specGapWarnings (fromAge : α → ℤ) (years : α → Option ℤ) (bound : ℤ)
    (label : String) (rows : List α) : List String :=
  (specPairsFrom fromAge years bound Option.none (sortRows fromAge rows)).bind
    fun pr => if pr.1 < pr.2 then [gapMsg label pr.1 pr.2] else []

/-- Swapping the first two of three appended blocks is a permutation. -/
theorem perm_middle_swap (xs ys zs : List α) :
    (xs ++ (ys ++ zs)).Perm (ys ++ (xs ++ zs)) := by
  rw [← List.append_assoc, ← List.append_assoc]
  exact List.perm_append_comm.append_right zs

/-- `_validate_rows`' loop emits exactly the spec-side warnings, and its
errors are the spec-side invalid-window and overlap errors (interleaved
per row in the code, grouped by kind in the spec — hence a
permutation). -/
theorem validateRowsAux_perm (fromAge : α → ℤ) (years : α → Option ℤ) (bound : ℤ)
    (label : String) (l : List α) (pe : Option ℤ) :
    (validateRowsAux fromAge years bound label pe l).2 =
      (specPairsFrom fromAge years bound pe l).bind
        (fun pr => if pr.1 < pr.2 then [gapMsg label pr.1 pr.2] else []) ∧
    (validateRowsAux fromAge years bound label pe l).1.Perm
      ((specRowEnds fromAge years bound l).bind
        (fun re => if re.2 ≤ fromAge re.1 then [invalidMsg label (fromAge re.1)] else []) ++
       (specPairsFrom fromAge years bound pe l).bind
        (fun pr => if pr.2 < pr.1 then [overlapMsg label pr.2 pr.1] else [])) := by
  induction l generalizing pe with
  | nil => exact ⟨rfl, by simp [validateRowsAux, specRowEnds, specPairsFrom]⟩
  | cons r rest ih =>
    simp only [validateRowsAux, specRowEnds, specPairsFrom, List.cons_bind,
      List.append_bind, List.nil_bind]
    cases pe with
    | none =>
      refine ⟨by simpa using (ih _).1, ?_⟩
      simp only [List.append_assoc, List.nil_append, List.append_nil]
      exact List.Perm.append_left _ (ih _).2
    | some p =>
      rcases lt_trichotomy (fromAge r) p with h | h | h
      · have h1 : ¬ p < fromAge r := by omega
        simp only [if_pos h, if_neg h1, List.cons_bind, List.nil_bind]
        refine ⟨by simpa using (ih _).1, ?_⟩
        simp only [List.append_assoc, List.nil_append, List.append_nil]
        exact List.Perm.append_left _
          (((ih _).2.append_left _).trans (perm_middle_swap _ _ _))
      · have h1 : ¬ fromAge r < p := by omega
        have h2 : ¬ p < fromAge r := by omega
        simp only [if_neg h1, if_neg h2, List.cons_bind, List.nil_bind]
        refine ⟨by simpa using (ih _).1, ?_⟩
        simp only [List.append_assoc, List.nil_append, List.append_nil]
        exact List.Perm.append_left _ (ih _).2
      · have h1 : ¬ fromAge r < p := by omega
        simp only [if_neg h1, if_pos h, List.cons_bind, List.nil_bind]
        refine ⟨by simp [(ih _).1], ?_⟩
        simp only [List.append_assoc, List.nil_append, List.append_nil]
        exact List.Perm.append_left _ (ih _).2

/-- `_validate_rows` against the spec-side reading: the warnings are
exactly the per-pair gap warnings, and the errors are (as a multiset)
the per-row invalid-window errors together with the per-pair overlap
errors. -/
theorem validateRows_spec (fromAge : α → ℤ) (years : α → Option ℤ) (rows : List α)
    (bound : ℤ) (label : String) :
    (validateRows fromAge years rows bound label).2 =
      specGapWarnings fromAge years bound label rows ∧
    (validateRows fromAge years rows bound label).1.Perm
      (specInvalidErrors fromAge years bound label rows ++
       specOverlapErrors fromAge years bound label rows) := by
  unfold validateRows specGapWarnings specInvalidErrors specOverlapErrors
  by_cases h : rows.isEmpty = true
  · rw [List.isEmpty_iff] at h
    subst h
    exact ⟨rfl, by simp [sortRows, specRowEnds, specPairsFrom]⟩
  · rw [if_neg h]
    exact validateRowsAux_perm fromAge years bound label (sortRows fromAge rows)
      Option.none

/-- Pointwise permutations flatten to a permutation. -/
theorem flatten_map_perm (l : List γ) (F G : γ → List String)
    (h : ∀ x ∈ l, (F x).Perm (G x)) :
    ((l.map F).flatten).Perm ((l.map G).flatten) := by
  induction l with
  | nil => exact List.Perm.refl _
  | cons x xs ih =>
    simp only [List.map_cons, List.flatten_cons]
    exact (h x (List.mem_cons_self ..)).append
      (ih fun y hy => h y (List.mem_cons_of_mem _ hy))

/-- The spec-side reading of all fatal errors of a plan: invalid-window
and overlap errors of every rule-set (contributions and growth
overrides of every account, and the spending schedule). -/
def specPlanErrors (plan : Plan) : List String :=
  ((buildAccounts plan).map fun a =>
    (specInvalidErrors (fun r : ContributionRow => r.fromAge) (fun r => r.years)
       plan.retireAge (a.label ++ " contributions") a.contributions ++
     specOverlapErrors (fun r : ContributionRow => r.fromAge) (fun r => r.years)
       plan.retireAge (a.label ++ " contributions") a.contributions) ++
    (specInvalidErrors (fun r : GrowthOverrideRow => r.fromAge) (fun r => r.years)
       (plan.retireAge + 1) (a.label ++ " growth overrides") a.growthOverrides ++
     specOverlapErrors (fun r : GrowthOverrideRow => r.fromAge) (fun r => r.years)
       (plan.retireAge + 1) (a.label ++ " growth overrides") a.growthOverrides)).flatten ++
  (specInvalidErrors (fun r : SpendingRow => r.fromAge) (fun r => r.years)
     (plan.retireAge + 60) "spending schedule" (buildSpending plan) ++
   specOverlapErrors (fun r : SpendingRow => r.fromAge) (fun r => r.years)
     (plan.retireAge + 60) "spending schedule" (buildSpending plan))

end Accum

/-- C5: validation reports one overlap error per adjacent sorted pair
whose `fromAge` is before the previous interval's end (the message
naming both ages and the rule-set label) and one gap warning per pair
strictly after it; `prepare_plan` accumulates the errors of all
rule-sets (never stopping at the first); and — per the spec-modelled
`accumulations` entry point — gap warnings never cause rejection: with
no errors the computation runs whatever the warnings are. -/
theorem validation_reports_all_overlaps :
    (∀ (α : Type) (fromAge : α → ℤ) (years : α → Option ℤ) (rows : List α)
       (bound : ℤ) (label : String),
      (Accum.validateRows fromAge years rows bound label).2 =
        Accum.specGapWarnings fromAge years bound label rows ∧
      (Accum.validateRows fromAge years rows bound label).1.Perm
        (Accum.specInvalidErrors fromAge years bound label rows ++
         Accum.specOverlapErrors fromAge years bound label rows)) ∧
    (∀ plan : Accum.Plan,
      (Accum.preparePlan plan).2.errors.Perm (Accum.specPlanErrors plan)) ∧
    (∀ (plan : Accum.Plan) (baseYear : ℤ),
      (Accum.preparePlan plan).2.errors = [] →
      Accum.accumulations plan baseYear =
        Except.ok (Accum.accumulatePlan (Accum.preparePlan plan).1 baseYear)) := by
  refine ⟨fun α => Accum.validateRows_spec, ?_, ?_⟩
  · intro plan
    unfold Accum.preparePlan Accum.specPlanErrors
    simp only [List.map_map]
    refine List.Perm.append ?_ (Accum.validateRows_spec _ _ _ _ _).2
    refine Accum.flatten_map_perm _ _ _ ?_
    intro a _
    simp only [Function.comp_apply, Accum.accountDiagnostics]
    exact (Accum.validateRows_spec _ _ _ _ _).2.append
      (Accum.validateRows_spec _ _ _ _ _).2
  · intro plan baseYear h
    unfold Accum.accumulations
    rw [if_neg (by simp [h])]

/-- The plan used by the C5 witness: no rules at all, hence no
validation errors. -/
def planV : Accum.Plan :=
  { startAge := 30, retireAge := 32, inflationRate := 0
    scenarios := [{ kind := "avg", nominalRate := 6 / 100 }] }

/-- Witness for C5: the error-free plan is accepted and computed. -/
theorem validation_reports_all_overlaps_witness :
    Accum.accumulations planV 2024 =
      Except.ok (Accum.accumulatePlan (Accum.preparePlan planV).1 2024) :=
  validation_reports_all_overlaps.2.2 planV 2024 (by rfl)

end Capstone
